import Mathlib

/-!
Verification of the marvis-vault decision kernel against its specification.

The definitions below are a shallow embedding of the Python sources:
  src/vault/engine/condition_evaluator.py
  src/vault/engine/policy_engine.py
  src/vault/utils/security/validators.py
  src/vault/utils/security/error_taxonomy.py
  src/vault/utils/security/runtime_bypass.py
Python exceptions are modelled with `Except`, Python dicts with ordered
association lists, Python floats with an inductive carrying exact rationals
plus the special values inf, minus inf and nan.
-/

namespace Vault

/-- Python float values: finite values are modelled as exact rationals;
the special values inf, -inf and nan are separate constructors. -/
inductive PyFloat where
  | finite (q : ℚ)
  | inf
  | negInf
  | nan
deriving Repr, DecidableEq

/-- Python values as they appear in agent contexts and policies:
str, int, float, bool, None, list, dict (string-keyed, insertion ordered). -/
inductive PyVal where
  | none
  | bool (b : Bool)
  | int (n : ℤ)
  | float (f : PyFloat)
  | str (s : String)
  | list (xs : List PyVal)
  | dict (xs : List (String × PyVal))
deriving Repr

/-- Decimal digits of a fraction `rem / den` (with `rem < den`), produced by
long division with fuel; mirrors the way CPython prints the (decimal-valued)
floats this model uses. -/
def fracDigits : Nat → Nat → Nat → String
  | 0, _, _ => ""
  | _ + 1, 0, _ => ""
  | fuel + 1, rem, den =>
    toString (rem * 10 / den) ++ fracDigits fuel (rem * 10 % den) den

/-- Python `str()` of a float. Finite values print as `<int part>.<frac part>`
(so `str(85.0) = "85.0"`), the special values as `inf`, `-inf`, `nan`. The
rendering works on the reduced numerator and denominator of the rational. -/
def pyFloatStr : PyFloat → String
  | .finite q =>
    let sign := if q.num < 0 then "-" else ""
    let np := q.num.natAbs
    let ip := np / q.den
    let rem := np % q.den
    sign ++ toString ip ++ "." ++ (if rem = 0 then "0" else fracDigits 17 rem q.den)
  | .inf => "inf"
  | .negInf => "-inf"
  | .nan => "nan"

/-- Join rendered elements with `", "`, as Python does inside `repr` of
containers. -/
def commaJoin : List String → String
  | [] => ""
  | [x] => x
  | x :: y :: xs => x ++ ", " ++ commaJoin (y :: xs)

mutual

/-- Python `repr()` of a value (the rendering used for elements inside
containers, and hence for `str(dict)`): strings are quoted, `True`, `False`,
`None` as in Python. The model does not escape quote characters inside
strings; no string used in this development contains one. -/
def pyRepr : PyVal → String
  | .none => "None"
  | .bool b => if b then "True" else "False"
  | .int n => toString n
  | .float f => pyFloatStr f
  | .str s => "\x27" ++ s ++ "\x27"
  | .list xs => "[" ++ commaJoin (pyReprList xs) ++ "]"
  | .dict xs => "\x7b" ++ commaJoin (pyReprFields xs) ++ "\x7d"

/-- Renders each element of a Python list for `pyRepr`. -/
def pyReprList : List PyVal → List String
  | [] => []
  | x :: xs => pyRepr x :: pyReprList xs

/-- Renders each `key: value` entry of a Python dict for `pyRepr`. -/
def pyReprFields : List (String × PyVal) → List String
  | [] => []
  | (k, v) :: xs => ("\x27" ++ k ++ "\x27: " ++ pyRepr v) :: pyReprFields xs

end

/-- Python `str()` of a value: like `repr` except that a top-level string
renders without quotes (this is what f-string interpolation uses). -/
def pyStr : PyVal → String
  | .str s => s
  | v => pyRepr v

/-- Python `str()` of a bool. -/
def pyBoolStr (b : Bool) : String :=
  if b then "True" else "False"

/-- Python whitespace characters, as recognised by `str.isspace`, `str.strip`
and `char.isspace` (restricted to the characters that can occur in this
development). -/
def pyIsSpace (c : Char) : Bool :=
  c = ' ' ∨ c = '\t' ∨ c = '\n' ∨ c = '\r' ∨ c = '\x0b' ∨ c = '\x0c' ∨ c = '\xa0'

/-- Python `str.isspace()`: non-empty and all characters whitespace. -/
def pyStrIsSpace (s : String) : Bool :=
  ¬ s.data.isEmpty ∧ s.data.all pyIsSpace

/-- Python `str.strip()`: drop leading and trailing whitespace. -/
def pyStrip (s : String) : String :=
  String.mk ((s.data.dropWhile pyIsSpace).reverse.dropWhile pyIsSpace |>.reverse)

/-- Python ASCII lower-casing of one character (`str.lower()`; the strings this
development lower-cases contain no non-ASCII cased letters). -/
def pyLowerChar (c : Char) : Char :=
  if 'A' ≤ c ∧ c ≤ 'Z' then Char.ofNat (c.toNat + 32) else c

/-- Python `str.lower()`. -/
def pyLower (s : String) : String :=
  String.mk (s.data.map pyLowerChar)

/-- Python `type(value)` rendered as in an f-string, e.g. `<class 'str'>`. -/
def pyTypeStr : PyVal → String
  | .none => "<class \x27NoneType\x27>"
  | .bool _ => "<class \x27bool\x27>"
  | .int _ => "<class \x27int\x27>"
  | .float _ => "<class \x27float\x27>"
  | .str _ => "<class \x27str\x27>"
  | .list _ => "<class \x27list\x27>"
  | .dict _ => "<class \x27dict\x27>"

/-- Python truthiness `bool(value)` for the scalar and container values of the
model. -/
def pyTruthy : PyVal → Bool
  | .none => false
  | .bool b => b
  | .int n => n ≠ 0
  | .float (.finite q) => q ≠ 0
  | .float _ => true
  | .str s => s ≠ ""
  | .list xs => ¬ xs.isEmpty
  | .dict xs => ¬ xs.isEmpty

/-- Python `isinstance(value, (int, float))`; note that `bool` is a subclass
of `int` in Python, so booleans satisfy this test. -/
def pyIsNumber : PyVal → Bool
  | .int _ => true
  | .float _ => true
  | .bool _ => true
  | _ => false

/-- Python `float(value)` for values satisfying `pyIsNumber`. -/
def pyToFloat : PyVal → PyFloat
  | .int n => .finite n
  | .float f => f
  | .bool b => .finite (if b then 1 else 0)
  | _ => .finite 0

/-- Equality of Python floats: `nan` compares unequal to everything,
including itself. -/
def pyFloatEq : PyFloat → PyFloat → Bool
  | .finite q, .finite r => q = r
  | .inf, .inf => true
  | .negInf, .negInf => true
  | _, _ => false

/-- Strict order on Python floats: `nan` is incomparable (all comparisons
false). -/
def pyFloatLt : PyFloat → PyFloat → Bool
  | .finite q, .finite r => q < r
  | .finite _, .inf => true
  | .negInf, .finite _ => true
  | .negInf, .inf => true
  | _, _ => false

mutual

/-- Python `==` on values: numeric kinds (bool, int, float) compare by
numeric value (so `True == 1`), strings by content, `None` only to `None`;
values of unrelated kinds compare unequal. Dicts are compared entry-wise in
order (a simplification of Python's order-insensitive dict equality; the
decision-kernel paths only ever compare scalars). -/
def pyEq : PyVal → PyVal → Bool
  | .str a, .str b => a = b
  | .none, .none => true
  | .list a, .list b => pyEqList a b
  | .dict a, .dict b => pyEqFields a b
  | a, b =>
    if pyIsNumber a ∧ pyIsNumber b then pyFloatEq (pyToFloat a) (pyToFloat b)
    else false

/-- Pointwise Python `==` on lists. -/
def pyEqList : List PyVal → List PyVal → Bool
  | [], [] => true
  | a :: as_, b :: bs => pyEq a b ∧ pyEqList as_ bs
  | _, _ => false

/-- Entry-wise Python `==` on dict entries. -/
def pyEqFields : List (String × PyVal) → List (String × PyVal) → Bool
  | [], [] => true
  | (k, v) :: as_, (k2, v2) :: bs => k = k2 ∧ pyEq v v2 ∧ pyEqFields as_ bs
  | _, _ => false

end

/-- Dict lookup, Python `context[key]` / `context.get(key)`: first binding of
the key in the association list. -/
def pyLookup (ctx : List (String × PyVal)) (k : String) : Option PyVal :=
  match ctx.find? (fun kv => kv.1 = k) with
  | some kv => some kv.2
  | Option.none => Option.none

/-- Dict membership, Python `key in context`. -/
def pyHasKey (ctx : List (String × PyVal)) (k : String) : Bool :=
  (pyLookup ctx k).isSome

/-! ### Condition evaluator (src/vault/engine/condition_evaluator.py) -/

/-- Joins a chain of field names with `" -> "`, as in
`CircularReferenceError.__init__`. -/
def arrowJoin : List String → String
  | [] => ""
  | [x] => x
  | x :: y :: xs => x ++ " -> " ++ arrowJoin (y :: xs)

/-- Exceptions raised by the condition evaluator: `InvalidConditionError`,
`ConditionValidationError`, `CircularReferenceError` (which stores the field
and the visited chain) and plain `ValueError`. All of them subclass
`ValueError` in the source; the policy engine distinguishes only
`InvalidConditionError` from the rest. -/
inductive EvalErr where
  | invalidCondition (msg : String)
  | conditionValidation (msg : String)
  | circularReference (field : String) (chain : List String)
  | valueError (msg : String)
deriving Repr, DecidableEq

/-- Python `str(e)` for an evaluator exception; a `CircularReferenceError`
renders the full chain, as built in its `__init__`. -/
def EvalErr.msg : EvalErr → String
  | .invalidCondition m => m
  | .conditionValidation m => m
  | .circularReference f chain => "Circular reference detected: " ++ arrowJoin (chain ++ [f])
  | .valueError m => m

/-- Is the exception an `InvalidConditionError`? (The only class the policy
engine's loop catches separately.) -/
def EvalErr.isInvalidCondition : EvalErr → Bool
  | .invalidCondition _ => true
  | _ => false

/-- The `Operator` enum of the condition evaluator. -/
inductive Operator where
  | AND
  | OR
  | EQUALS
  | NOT_EQUALS
  | GREATER_THAN
  | LESS_THAN
deriving Repr, DecidableEq

/-- Payload of a `TokenType.VALUE` token: the tokenizer stores identifiers as
strings and numeric literals as floats in the same `value` slot. -/
inductive TokVal where
  | s (v : String)
  | f (q : ℚ)
deriving Repr, DecidableEq

/-- Python `str()` / f-string rendering of a `VALUE` token's payload. -/
def tokValStr : TokVal → String
  | .s v => v
  | .f q => pyFloatStr (.finite q)

/-- A token, combining the source's `TokenType` tag and `value` payload:
`operator` for `TokenType.OPERATOR`, `value` for `TokenType.VALUE`,
`literal` for `TokenType.LITERAL` (string literals), `paren` for
`TokenType.PAREN`. -/
inductive Token where
  | operator (op : Operator)
  | value (v : TokVal)
  | literal (s : String)
  | paren (c : Char)
deriving Repr, DecidableEq

/-- Python chained comparison `0 <= num_value <= 100` on a float: false for
`nan` (incomparable), false for the infinities. -/
def floatInBounds01 : PyFloat → Bool
  | .finite q => 0 ≤ q ∧ q ≤ 100
  | _ => false

/-- The `_validate_numeric` helper: rejects null and non-numeric values, and
enforces the `[0, 100]` bound when the field being compared is named
`trustScore`. `field_name` is the raw token payload (a float literal's own
value when the operand was a literal). -/
def validate_numeric (value : PyVal) (field_name : TokVal) : Except EvalErr PyFloat :=
  match value with
  | .none =>
    .error (.conditionValidation ("Field \x27" ++ tokValStr field_name ++ "\x27 cannot be null"))
  | v =>
    if ¬ pyIsNumber v then
      .error (.conditionValidation
        ("Field \x27" ++ tokValStr field_name ++ "\x27 must be numeric, got " ++ pyTypeStr v))
    else
      let num_value := pyToFloat v
      if field_name = .s "trustScore" ∧ ¬ floatInBounds01 num_value then
        .error (.conditionValidation
          ("Field \x27" ++ tokValStr field_name ++ "\x27 must be between 0 and 100 inclusive"))
      else
        .ok num_value

/-- ASCII letter test (the identifier alphabet of `_tokenize`; Python's
`char.isalpha()` restricted to the ASCII letters this development uses). -/
def pyIsAlpha (c : Char) : Bool :=
  ('a' ≤ c ∧ c ≤ 'z') ∨ ('A' ≤ c ∧ c ≤ 'Z')

/-- ASCII digit test (`char.isdigit()` restricted to ASCII). -/
def pyIsDigit (c : Char) : Bool :=
  '0' ≤ c ∧ c ≤ '9'

/-- Characters matching the regex class `[a-zA-Z0-9_]` (identifier tail). -/
def isWordChar (c : Char) : Bool :=
  pyIsAlpha c ∨ pyIsDigit c ∨ c = '_'

/-- Digit list to natural number (most significant first). -/
def digitsToNat (ds : List Char) : Nat :=
  ds.foldl (fun acc c => acc * 10 + (c.toNat - '0'.toNat)) 0

/-- Value of the numeric-literal regex match `-?\d+(\.\d+)?` with integer
digits `ip`, fractional digits `fp` and sign `neg` (the tokenizer's
`float(match.group())`). Built with `mkRat` so the value normalizes inside
the kernel. -/
def numLitVal (neg : Bool) (ip fp : List Char) : ℚ :=
  let n : ℤ := (digitsToNat ip * 10 ^ fp.length + digitsToNat fp : ℕ)
  mkRat (if neg then -n else n) (10 ^ fp.length)

/-- One step of `_tokenize`'s `while` loop, written with explicit fuel so the
definition is structurally recursive (each iteration consumes at least one
character, so the initial fuel `length + 1` is never exhausted). `cs` is the
rest of the condition, `i` the current position, `toks` the tokens so far. -/
def tokenizeGo : Nat → List Char → Nat → List Token → Except EvalErr (List Token)
  | 0, _, _, _ => .error (.valueError "tokenizer fuel exhausted")
  | _ + 1, [], _, toks => .ok toks
  | fuel + 1, c :: cs, i, toks =>
    if toks.length ≥ 100 then
      .error (.conditionValidation "Condition exceeds maximum token limit of 100")
    else if pyIsSpace c then
      tokenizeGo fuel cs (i + 1) toks
    else if c = '&' ∨ c = '|' ∨ c = '=' ∨ c = '!' ∨ c = '>' ∨ c = '<' then
      match cs with
      | c2 :: cs2 =>
        if (c = '>' ∨ c = '<') ∧ (c2 = '>' ∨ c2 = '<') then
          .error (.conditionValidation
            ("Invalid operator sequence \x27" ++ String.mk [c, c2] ++ "\x27 at position " ++
              toString i))
        else if c = '&' ∧ c2 = '&' then
          tokenizeGo fuel cs2 (i + 2) (toks ++ [.operator .AND])
        else if c = '|' ∧ c2 = '|' then
          tokenizeGo fuel cs2 (i + 2) (toks ++ [.operator .OR])
        else if c = '=' ∧ c2 = '=' then
          tokenizeGo fuel cs2 (i + 2) (toks ++ [.operator .EQUALS])
        else if c = '!' ∧ c2 = '=' then
          tokenizeGo fuel cs2 (i + 2) (toks ++ [.operator .NOT_EQUALS])
        else if c = '>' then
          tokenizeGo fuel cs (i + 1) (toks ++ [.operator .GREATER_THAN])
        else if c = '<' then
          tokenizeGo fuel cs (i + 1) (toks ++ [.operator .LESS_THAN])
        else
          .error (.conditionValidation ("Invalid operator at position " ++ toString i))
      | [] =>
        if c = '>' then
          tokenizeGo fuel [] (i + 1) (toks ++ [.operator .GREATER_THAN])
        else if c = '<' then
          tokenizeGo fuel [] (i + 1) (toks ++ [.operator .LESS_THAN])
        else
          .error (.conditionValidation ("Invalid operator at position " ++ toString i))
    else if c = '(' ∨ c = ')' then
      tokenizeGo fuel cs (i + 1) (toks ++ [.paren c])
    else if pyIsAlpha c then
      let tail := cs.takeWhile isWordChar
      let rest := cs.dropWhile isWordChar
      tokenizeGo fuel rest (i + 1 + tail.length) (toks ++ [.value (.s (String.mk (c :: tail)))])
    else if pyIsDigit c ∨ c = '-' then
      let neg := c = '-'
      let ds := if neg then cs else c :: cs
      let ip := ds.takeWhile pyIsDigit
      if ip.isEmpty then
        .error (.conditionValidation ("Invalid number at position " ++ toString i))
      else
        let rest1 := ds.dropWhile pyIsDigit
        match rest1 with
        | '.' :: rest2 =>
          let fp := rest2.takeWhile pyIsDigit
          if fp.isEmpty then
            -- regex `-?\d+(\.\d+)?` matches only the integer part; the dot is
            -- left for the next iteration
            tokenizeGo fuel rest1 (i + (if neg then 1 else 0) + ip.length)
              (toks ++ [.value (.f (numLitVal neg ip []))])
          else
            tokenizeGo fuel (rest2.dropWhile pyIsDigit)
              (i + (if neg then 1 else 0) + ip.length + 1 + fp.length)
              (toks ++ [.value (.f (numLitVal neg ip fp))])
        | _ =>
          tokenizeGo fuel rest1 (i + (if neg then 1 else 0) + ip.length)
            (toks ++ [.value (.f (numLitVal neg ip []))])
    else if c = '\x27' ∨ c = '"' then
      let content := cs.takeWhile (fun d => d ≠ c)
      let rest := cs.dropWhile (fun d => d ≠ c)
      match rest with
      | _ :: rest2 =>
        tokenizeGo fuel rest2 (i + content.length + 2) (toks ++ [.literal (String.mk content)])
      | [] =>
        .error (.conditionValidation ("Unclosed string at position " ++ toString i))
    else
      .error (.conditionValidation ("Unexpected character at position " ++ toString i))

/-- The `_tokenize` function: condition string to token list. -/
def tokenize (condition : String) : Except EvalErr (List Token) :=
  tokenizeGo (condition.length + 1) condition.data 0 []

/-- The scan of `_find_matching_paren`: `count` open parentheses so far, `i`
the index of the token at the head of the list. Returns the index of the
matching close parenthesis, or `none` (the source raises
`ValueError("Unmatched parenthesis")`). -/
def fmpGo : List Token → Nat → Nat → Option Nat
  | [], _, _ => Option.none
  | .paren c :: rest, count, i =>
    if c = '(' then fmpGo rest (count + 1) (i + 1)
    else if count = 1 then some i
    else fmpGo rest (count - 1) (i + 1)
  | _ :: rest, count, i => fmpGo rest count (i + 1)

/-- The `_find_matching_paren` helper, scanning from `start + 1` with one
open parenthesis counted. -/
def find_matching_paren (tokens : List Token) (start : Nat) : Option Nat :=
  fmpGo (tokens.drop (start + 1)) 1 (start + 1)

/-- Adds a name to the visited set (`visited_fields.add`); the model keeps
insertion order, which is all the source observes on the paths exercised
here. -/
def visitedAdd (visited : List String) (name : String) : List String :=
  if visited.contains name then visited else visited ++ [name]

/-- The raw `value` payload of a token, as passed to `_validate_numeric` for
the `field_name` argument (`tokens[0].value` / `tokens[2].value`). An
operator token's enum payload is rendered as its `str()` form. -/
def tokenFieldName : Token → TokVal
  | .value v => v
  | .literal s => .s s
  | .paren c => .s (String.mk [c])
  | .operator op => .s ("Operator." ++ toString (repr op))

/-- Resolution of a comparison operand in `_evaluate_expression`:
a `VALUE` token holding a string is looked up in the context (with the
circular-reference check against `visited_fields`), every other token
contributes its payload directly. `strict` is true for the left operand,
whose missing-key lookup raises; the right operand's lookup has no `else`
branch and leaves the bare string in place. Returns the resolved value and
the updated visited set. -/
def resolveOperand (t : Token) (context : List (String × PyVal)) (visited : List String)
    (strict : Bool) : Except EvalErr (PyVal × List String) :=
  match t with
  | .value (.s name) =>
    if visited.contains name then
      .error (.circularReference name visited)
    else
      match pyLookup context name with
      | some v => .ok (v, visitedAdd visited name)
      | Option.none =>
        if strict then
          .error (.valueError ("Context key \x27" ++ name ++ "\x27 not found"))
        else
          .ok (.str name, visited)
  | .value (.f q) => .ok (.float (.finite q), visited)
  | .literal s => .ok (.str s, visited)
  | .paren c => .ok (.str (String.mk [c]), visited)
  | .operator op => .ok (.str ("Operator." ++ toString (repr op)), visited)

/-- Index and operator of the first `AND`/`OR` operator token in the stream
(the `for i in range(len(tokens))` loop of `_evaluate_expression`). -/
def findBoolOp : List Token → Nat → Option (Nat × Operator)
  | [], _ => Option.none
  | .operator .AND :: _, i => some (i, .AND)
  | .operator .OR :: _, i => some (i, .OR)
  | _ :: rest, i => findBoolOp rest (i + 1)

/-- The `_evaluate_expression` function. The first argument is fuel making
the recursion structural; every recursive call is on a strictly shorter
token list, so the initial fuel `length + 1` is never exhausted. `depth` is
the source's recursion-depth counter with its ceiling of 20. The source
mutates the `visited_fields` set in place; the model threads the updated
set explicitly, matching the source's copy discipline (`AND`/`OR` branches
receive copies, the parenthesis unwrap shares the set). -/
def evaluate_expression : Nat → List Token → List (String × PyVal) → List String → Nat →
    Except EvalErr (Bool × String)
  | 0, _, _, _, _ => .error (.valueError "expression fuel exhausted")
  | fuel + 1, tokens, context, visited, depth =>
    if depth > 20 then
      .error (.valueError "Maximum recursion depth of 20 exceeded")
    else if tokens.isEmpty then
      .ok (true, "Empty condition")
    else
      let parenStep : Except EvalErr (Option (Bool × String)) :=
        match tokens with
        | .paren '(' :: _ =>
          match find_matching_paren tokens 0 with
          | Option.none => .error (.valueError "Unmatched parenthesis")
          | some e =>
            if e = tokens.length - 1 then
              (evaluate_expression fuel ((tokens.drop 1).take (e - 1)) context visited
                (depth + 1)).map some
            else
              .ok Option.none
        | _ => .ok Option.none
      match parenStep with
      | .error e => .error e
      | .ok (some r) => .ok r
      | .ok Option.none =>
        match tokens with
        | [.value (.s name)] =>
          if visited.contains name then
            .error (.circularReference name visited)
          else
            match pyLookup context name with
            | some v =>
              .ok (pyTruthy v,
                "Context value \x27" ++ name ++ "\x27 is " ++ pyBoolStr (pyTruthy v))
            | Option.none =>
              .error (.valueError ("Context key \x27" ++ name ++ "\x27 not found"))
        | [.value (.f q)] =>
          .ok (pyTruthy (.float (.finite q)),
            "Value " ++ pyFloatStr (.finite q) ++ " is " ++
              pyBoolStr (pyTruthy (.float (.finite q))))
        | [.literal s] =>
          .ok (pyTruthy (.str s), "Value " ++ s ++ " is " ++ pyBoolStr (pyTruthy (.str s)))
        | [_] => .error (.valueError "Invalid expression")
        | _ =>
          let comparisonStep : Except EvalErr (Sum (Bool × String) (List String)) :=
            match tokens with
            | [t0, .operator op, t2] =>
              match resolveOperand t0 context visited true with
              | .error e => .error e
              | .ok (left, visited1) =>
                match resolveOperand t2 context visited1 false with
                | .error e => .error e
                | .ok (right, visited2) =>
                  if op = .GREATER_THAN ∨ op = .LESS_THAN then
                    match validate_numeric left (tokenFieldName t0) with
                    | .error e => .error (.valueError ("Invalid comparison: " ++ e.msg))
                    | .ok lf =>
                      match validate_numeric right (tokenFieldName t2) with
                      | .error e => .error (.valueError ("Invalid comparison: " ++ e.msg))
                      | .ok rf =>
                        if op = .GREATER_THAN then
                          .ok (.inl (pyFloatLt rf lf,
                            pyFloatStr lf ++ " > " ++ pyFloatStr rf ++ " is " ++
                              pyBoolStr (pyFloatLt rf lf)))
                        else
                          .ok (.inl (pyFloatLt lf rf,
                            pyFloatStr lf ++ " < " ++ pyFloatStr rf ++ " is " ++
                              pyBoolStr (pyFloatLt lf rf)))
                  else if op = .EQUALS then
                    .ok (.inl (pyEq left right,
                      pyStr left ++ " == " ++ pyStr right ++ " is " ++
                        pyBoolStr (pyEq left right)))
                  else if op = .NOT_EQUALS then
                    .ok (.inl (¬ pyEq left right,
                      pyStr left ++ " != " ++ pyStr right ++ " is " ++
                        pyBoolStr (¬ pyEq left right)))
                  else
                    -- an AND/OR operator in a three-token stream: none of the
                    -- four comparison branches returns, control falls through
                    -- to the AND/OR loop with the mutated visited set
                    .ok (.inr visited2)
            | _ => .ok (.inr visited)
          match comparisonStep with
          | .error e => .error e
          | .ok (.inl r) => .ok r
          | .ok (.inr visited3) =>
            match findBoolOp tokens 0 with
            | some (i, op) =>
              match evaluate_expression fuel (tokens.take i) context visited3 (depth + 1) with
              | .error e => .error e
              | .ok (lr, lexp) =>
                match evaluate_expression fuel (tokens.drop (i + 1)) context visited3
                    (depth + 1) with
                | .error e => .error e
                | .ok (rr, rexp) =>
                  if op = .AND then
                    .ok (lr ∧ rr,
                      "(" ++ lexp ++ ") AND (" ++ rexp ++ ") is " ++ pyBoolStr (lr ∧ rr))
                  else
                    .ok (lr ∨ rr,
                      "(" ++ lexp ++ ") OR (" ++ rexp ++ ") is " ++ pyBoolStr (lr ∨ rr))
            | Option.none => .error (.valueError "Invalid expression structure")

/-- The literal-saving pass of `normalize_condition`
(`re.sub(r"'[^']*'|\"[^\"]*\"", save_literal, condition)`): each quoted
literal is replaced by a key `__STR_LIT_<k>__` and remembered; an unclosed
quote matches nothing and is left in place. Fueled; each step consumes at
least one character. -/
def saveLiteralsGo : Nat → List Char → Nat → List Char × List (String × String)
  | 0, cs, _ => (cs, [])
  | _ + 1, [], _ => ([], [])
  | fuel + 1, c :: cs, k =>
    if c = '\x27' ∨ c = '"' then
      let content := cs.takeWhile (fun d => d ≠ c)
      let rest := cs.dropWhile (fun d => d ≠ c)
      match rest with
      | _ :: rest2 =>
        let key := "__STR_LIT_" ++ toString k ++ "__"
        let (ms, lits) := saveLiteralsGo fuel rest2 (k + 1)
        (key.data ++ ms, (key, String.mk (c :: (content ++ [c]))) :: lits)
      | [] =>
        let (ms, lits) := saveLiteralsGo fuel cs k
        (c :: ms, lits)
    else
      let (ms, lits) := saveLiteralsGo fuel cs k
      (c :: ms, lits)

/-- The pass `re.sub(r'(?<!!)===', '==', s)`. The `prev` argument carries the
character before the scan position for the lookbehind. -/
def subTripleEq : Nat → List Char → Option Char → List Char
  | 0, cs, _ => cs
  | _ + 1, [], _ => []
  | fuel + 1, '=' :: '=' :: '=' :: rest, prev =>
    if prev = some '!' then
      '=' :: subTripleEq fuel ('=' :: '=' :: rest) (some '=')
    else
      '=' :: '=' :: subTripleEq fuel rest (some '=')
  | fuel + 1, c :: rest, _ => c :: subTripleEq fuel rest (some c)

/-- The pass `re.sub(r'!==', '!=', s)`. -/
def subNeq : Nat → List Char → List Char
  | 0, cs => cs
  | _ + 1, [] => []
  | fuel + 1, '!' :: '=' :: '=' :: rest => '!' :: '=' :: subNeq fuel rest
  | fuel + 1, c :: rest => c :: subNeq fuel rest

/-- The pass `re.sub(r'(?<![=!<>])\|\|(?![=|])', ' or ', s)`. -/
def subOr : Nat → List Char → Option Char → List Char
  | 0, cs, _ => cs
  | _ + 1, [], _ => []
  | fuel + 1, '|' :: '|' :: rest, prev =>
    if (prev = some '=' ∨ prev = some '!' ∨ prev = some '<' ∨ prev = some '>') ∨
        (rest.head? = some '=' ∨ rest.head? = some '|') then
      '|' :: subOr fuel ('|' :: rest) (some '|')
    else
      ' ' :: 'o' :: 'r' :: ' ' :: subOr fuel rest (some '|')
  | fuel + 1, c :: rest, _ => c :: subOr fuel rest (some c)

/-- The pass `re.sub(r'(?<![=!<>])&&(?![&])', ' and ', s)`. -/
def subAnd : Nat → List Char → Option Char → List Char
  | 0, cs, _ => cs
  | _ + 1, [], _ => []
  | fuel + 1, '&' :: '&' :: rest, prev =>
    if (prev = some '=' ∨ prev = some '!' ∨ prev = some '<' ∨ prev = some '>') ∨
        rest.head? = some '&' then
      '&' :: subAnd fuel ('&' :: rest) (some '&')
    else
      ' ' :: 'a' :: 'n' :: 'd' :: ' ' :: subAnd fuel rest (some '&')
  | fuel + 1, c :: rest, _ => c :: subAnd fuel rest (some c)

/-- The pass `re.sub(r'(?<![\w!])!(?![=\w])', 'not ', s)` (bare `!` to `not`,
keeping `!=` intact). -/
def subNot : Nat → List Char → Option Char → List Char
  | 0, cs, _ => cs
  | _ + 1, [], _ => []
  | fuel + 1, '!' :: rest, prev =>
    let prevBlocks : Bool := match prev with
      | some p => isWordChar p ∨ p = '!'
      | Option.none => false
    let nextBlocks : Bool := match rest.head? with
      | some n => n = '=' ∨ isWordChar n
      | Option.none => false
    if prevBlocks ∨ nextBlocks then
      '!' :: subNot fuel rest (some '!')
    else
      'n' :: 'o' :: 't' :: ' ' :: subNot fuel rest (some '!')
  | fuel + 1, c :: rest, _ => c :: subNot fuel rest (some c)

/-- Python `str.replace(key, val)`: replace every non-overlapping occurrence,
left to right (used to restore the saved string literals). -/
def replaceGo : Nat → List Char → List Char → List Char → List Char
  | 0, cs, _, _ => cs
  | _ + 1, [], _, _ => []
  | fuel + 1, c :: cs, key, val =>
    if key.isPrefixOf (c :: cs) then
      val ++ replaceGo fuel ((c :: cs).drop key.length) key val
    else
      c :: replaceGo fuel cs key val

/-- Python `s.replace(key, val)` on strings. -/
def strReplace (s key val : String) : String :=
  String.mk (replaceGo (s.length + 1) s.data key.data val.data)

/-- The `normalize_condition` function: saves string literals, rewrites the
JavaScript-style operators (`===`, `!==`, `||`, `&&`, bare `!`) and restores
the literals. -/
def normalize_condition (condition : String) : String :=
  if condition = "" then condition
  else
    let (masked, lits) := saveLiteralsGo (condition.length + 1) condition.data 0
    let n := masked.length + 1
    let s1 := subTripleEq n masked Option.none
    let s2 := subNeq (s1.length + 1) s1
    let s3 := subOr (s2.length + 1) s2 Option.none
    let s4 := subAnd (s3.length + 1) s3 Option.none
    let s5 := subNot (s4.length + 1) s4 Option.none
    lits.foldl (fun acc kv => strReplace acc kv.1 kv.2) (String.mk s5)

/-- The `evaluate_condition` function: validates the condition string,
normalizes it, tokenizes and evaluates it. `CircularReferenceError` and
`InvalidConditionError` are re-raised unchanged; every other exception is
wrapped in a `ValueError` naming the original condition. The source's
optional `visited_fields` parameter defaults to `None` and the policy engine
never passes it, so the model starts from the empty set. -/
def evaluate_condition (condition : String) (context : List (String × PyVal)) :
    Except EvalErr (Bool × String) :=
  if condition = "" then
    .error (.invalidCondition "Condition cannot be empty or None")
  else if pyStrIsSpace condition then
    .error (.invalidCondition "Condition cannot be whitespace only")
  else
    let attempt : Except EvalErr (Bool × String) :=
      match tokenize (normalize_condition condition) with
      | .error e => .error e
      | .ok [] => .error (.invalidCondition "Condition produced no valid tokens")
      | .ok tokens => evaluate_expression (tokens.length + 1) tokens context [] 0
    match attempt with
    | .ok r => .ok r
    | .error (.circularReference f c) => .error (.circularReference f c)
    | .error (.invalidCondition m) => .error (.invalidCondition m)
    | .error e =>
      .error (.valueError
        ("Failed to evaluate condition \x27" ++ condition ++ "\x27: " ++ e.msg))

/-! ### Policy engine (src/vault/engine/policy_engine.py)

The source's `evaluate(context, policy_path)` first loads the policy file via
`parse_policy`; policy-file loading is an external collaborator (spec section
6: policies are consumed as already-parsed `Policy` values), so the model
takes the parsed `Policy` directly. -/

/-- The `Policy` pydantic model of policy_parser.py: `mask`, `unmask_roles`
and `conditions` are required lists of strings; `name` and `template_id` are
optional. -/
structure Policy where
  mask : List String
  unmask_roles : List String
  conditions : List String
  name : Option String := Option.none
  template_id : Option String := Option.none
deriving Repr, DecidableEq

/-- The `ConditionResult` named tuple: one condition's outcome. -/
structure ConditionResult where
  condition : String
  success : Bool
  explanation : String
  fields : List String
deriving Repr, DecidableEq

/-- The `EvaluationResult` pydantic model: outcome of one policy
evaluation. -/
structure EvaluationResult where
  success : Bool
  reason : String
  fields : List String := []
  skipped_conditions : List String := []
  condition_results : List ConditionResult := []
  passed_conditions : List String := []
  failed_conditions : List String := []
  unmask_role_override : Bool := false
deriving Repr, DecidableEq

/-- The condition loop of `evaluate`. The source's
`success, explanation, fields_affected = evaluate_condition(condition, context)`
unpacks a three-name target from `evaluate_condition`'s two-element return
value (`Tuple[bool, str]`), so every return from `evaluate_condition` raises
`ValueError("not enough values to unpack (expected 3, got 2)")` at the call
site, which the loop's `except Exception` arm turns into the fatal failure
result. An `InvalidConditionError` is appended to `skipped_conditions` and
the loop continues; any other exception also takes the fatal arm. -/
def evalConditionsLoop (context : List (String × PyVal)) (policy : Policy) :
    List String → List String → List ConditionResult → List String → List String →
    EvaluationResult
  | [], skipped, results, passed, failed =>
    let should_mask := passed.length = 0 ∧ policy.conditions.length > 0
    let reason :=
      if passed.length > 0 then
        toString passed.length ++ " of " ++ toString policy.conditions.length ++
          " conditions passed"
      else if policy.conditions.length = 0 then
        "No conditions to evaluate"
      else
        "All conditions failed"
    { success := ¬ should_mask
      reason := reason
      fields := if should_mask then policy.mask else []
      skipped_conditions := skipped
      condition_results := results
      passed_conditions := passed
      failed_conditions := failed
      unmask_role_override := false }
  | condition :: rest, skipped, results, passed, failed =>
    match evaluate_condition condition context with
    | .ok _ =>
      -- the triple-unpacking of the two-element result raises here
      { success := false
        reason := "Error evaluating condition \x27" ++ condition ++
          "\x27: not enough values to unpack (expected 3, got 2)"
        fields := policy.mask
        skipped_conditions := skipped
        condition_results := results
        passed_conditions := passed
        failed_conditions := failed
        unmask_role_override := false }
    | .error (.invalidCondition m) =>
      evalConditionsLoop context policy rest
        (skipped ++ ["Skipped invalid condition \x27" ++ condition ++ "\x27: " ++ m])
        results passed failed
    | .error e =>
      { success := false
        reason := "Error evaluating condition \x27" ++ condition ++ "\x27: " ++ e.msg
        fields := policy.mask
        skipped_conditions := skipped
        condition_results := results
        passed_conditions := passed
        failed_conditions := failed
        unmask_role_override := false }

/-- The role-override test of `evaluate`:
`context.get("role") in policy.unmask_roles`, a Python `in` over a list of
strings that can only be true when the role value is a string equal to a
listed role. -/
def roleOverrideActive (context : List (String × PyVal)) (policy : Policy) : Bool :=
  match pyLookup context "role" with
  | some (.str r) => policy.unmask_roles.contains r
  | _ => false

/-- The `evaluate` function of the policy engine: role override first, then
the condition loop. -/
def evaluate (context : List (String × PyVal)) (policy : Policy) : EvaluationResult :=
  if roleOverrideActive context policy then
    { success := true
      reason := "Unmasked for role \x27" ++
        (match pyLookup context "role" with
         | some v => pyStr v
         | Option.none => "None") ++ "\x27"
      fields := []
      skipped_conditions := []
      condition_results := []
      passed_conditions := []
      failed_conditions := []
      unmask_role_override := true }
  else
    evalConditionsLoop context policy policy.conditions [] [] [] []

/-! ### Error taxonomy (src/vault/utils/security/error_taxonomy.py) -/

/-- The `ErrorCategory` enum. -/
inductive ErrorCategory where
  | TYPE_ERROR
  | MISSING_FIELD
  | INJECTION_ATTACK
  | DOS_ATTACK
  | INVALID_VALUE
  | SIZE_LIMIT
  | DEPTH_LIMIT
deriving Repr, DecidableEq

/-- The `ErrorCode` enum. -/
inductive ErrorCode where
  | TYPE_STRING_EXPECTED
  | TYPE_NUMBER_EXPECTED
  | TYPE_DICT_EXPECTED
  | TYPE_LIST_EXPECTED
  | FIELD_REQUIRED
  | FIELD_EMPTY
  | INJECTION_SQL
  | INJECTION_XSS
  | INJECTION_COMMAND
  | INJECTION_PATH_TRAVERSAL
  | INJECTION_LDAP
  | INJECTION_REGEX
  | INJECTION_NULLBYTE
  | INJECTION_UNICODE
  | DOS_LARGE_PAYLOAD
  | DOS_DEEP_NESTING
  | DOS_EXCESSIVE_FIELDS
  | VALUE_OUT_OF_RANGE
  | VALUE_INVALID_FORMAT
  | VALUE_SPECIAL_NUMBER
  | VALUE_CONTROL_CHARACTER
  | SIZE_TOO_LARGE
  | SIZE_TOO_SMALL
  | DEPTH_EXCEEDED
deriving Repr, DecidableEq

/-- The string value of each `ErrorCode` member (`"E001"` etc.). -/
def ErrorCode.value : ErrorCode → String
  | .TYPE_STRING_EXPECTED => "E001"
  | .TYPE_NUMBER_EXPECTED => "E002"
  | .TYPE_DICT_EXPECTED => "E003"
  | .TYPE_LIST_EXPECTED => "E004"
  | .FIELD_REQUIRED => "E100"
  | .FIELD_EMPTY => "E101"
  | .INJECTION_SQL => "E200"
  | .INJECTION_XSS => "E201"
  | .INJECTION_COMMAND => "E202"
  | .INJECTION_PATH_TRAVERSAL => "E203"
  | .INJECTION_LDAP => "E204"
  | .INJECTION_REGEX => "E205"
  | .INJECTION_NULLBYTE => "E206"
  | .INJECTION_UNICODE => "E207"
  | .DOS_LARGE_PAYLOAD => "E300"
  | .DOS_DEEP_NESTING => "E301"
  | .DOS_EXCESSIVE_FIELDS => "E302"
  | .VALUE_OUT_OF_RANGE => "E400"
  | .VALUE_INVALID_FORMAT => "E401"
  | .VALUE_SPECIAL_NUMBER => "E402"
  | .VALUE_CONTROL_CHARACTER => "E403"
  | .SIZE_TOO_LARGE => "E500"
  | .SIZE_TOO_SMALL => "E501"
  | .DEPTH_EXCEEDED => "E600"

/-- The `ValidationError` exception: structured code, category, field path and
details. Detail values are rendered to strings in the model; the message
text is assembled by `create_error` from the templates. -/
structure ValidationError where
  code : ErrorCode
  category : ErrorCategory
  message : String
  field : Option String
  details : List (String × String)
deriving Repr, DecidableEq

/-- Scans every suffix of the text for the pattern as a prefix. -/
def strContainsGo (pat : List Char) : List Char → Bool
  | [] => pat.isPrefixOf []
  | c :: cs => pat.isPrefixOf (c :: cs) ∨ strContainsGo pat cs

/-- Substring test, Python `sub in s`. -/
def strContains (s sub : String) : Bool :=
  strContainsGo sub.data s.data

/-- Python `str.startswith`, on the character lists of the strings. -/
def strStartsWith (s p : String) : Bool :=
  p.data.isPrefixOf s.data

/-- Category derivation of `create_error`: dispatch on the prefix of the
code's string value (`"E0"` type, `"E1"` missing, `"E2"` injection, `"E3"`
DoS, `"E4"` invalid value, `"E5"` size, `"E6"` depth). -/
def categoryFromCode (code : ErrorCode) : ErrorCategory :=
  if strStartsWith code.value "E0" then .TYPE_ERROR
  else if strStartsWith code.value "E1" then .MISSING_FIELD
  else if strStartsWith code.value "E2" then .INJECTION_ATTACK
  else if strStartsWith code.value "E3" then .DOS_ATTACK
  else if strStartsWith code.value "E4" then .INVALID_VALUE
  else if strStartsWith code.value "E5" then .SIZE_LIMIT
  else if strStartsWith code.value "E6" then .DEPTH_LIMIT
  else .INVALID_VALUE

/-- Message templates of `ERROR_MESSAGES`, instantiated with the field (or
`"value"` when absent, as in `format_args`); the `{details}`/`{value}`
renderings are abbreviated to the detail list's repr, which no theorem in
this development inspects. -/
def errorMessage (code : ErrorCode) (field : Option String) (details : List (String × String)) :
    String :=
  let f := field.getD "value"
  match code with
  | .TYPE_STRING_EXPECTED => f ++ " must be a string"
  | .TYPE_NUMBER_EXPECTED => f ++ " must be a number"
  | .TYPE_DICT_EXPECTED => f ++ " must be a dictionary"
  | .TYPE_LIST_EXPECTED => f ++ " must be a list"
  | .FIELD_REQUIRED => f ++ " is required"
  | .FIELD_EMPTY => f ++ " cannot be empty"
  | .INJECTION_SQL => "SQL injection detected in " ++ f
  | .INJECTION_XSS => "XSS injection detected in " ++ f
  | .INJECTION_COMMAND => "Command injection detected in " ++ f
  | .INJECTION_PATH_TRAVERSAL => "Path traversal detected in " ++ f
  | .INJECTION_LDAP => "LDAP injection detected in " ++ f
  | .INJECTION_REGEX => "Regex injection detected in " ++ f
  | .INJECTION_NULLBYTE => "Null byte injection detected in " ++ f
  | .INJECTION_UNICODE => "Unicode attack detected in " ++ f
  | .DOS_LARGE_PAYLOAD => "Payload too large: " ++ toString (repr details)
  | .DOS_DEEP_NESTING => "Maximum nesting depth exceeded"
  | .DOS_EXCESSIVE_FIELDS => "Too many fields in " ++ f
  | .VALUE_OUT_OF_RANGE => f ++ " value out of range"
  | .VALUE_INVALID_FORMAT => "Invalid format for " ++ f
  | .VALUE_SPECIAL_NUMBER => "Special numeric value not allowed"
  | .VALUE_CONTROL_CHARACTER => "Control characters not allowed in " ++ f
  | .SIZE_TOO_LARGE => f ++ " exceeds maximum size: " ++ toString (repr details)
  | .SIZE_TOO_SMALL => f ++ " below minimum size: " ++ toString (repr details)
  | .DEPTH_EXCEEDED => "Maximum depth exceeded"

/-- The `create_error` factory: derives the category from the code's string
prefix and instantiates the message template. -/
def create_error (code : ErrorCode) (field : Option String)
    (details : List (String × String)) : ValidationError :=
  { code := code
    category := categoryFromCode code
    message := errorMessage code field details
    field := field
    details := details }

/-! ### Injection pattern screen (INJECTION_PATTERNS of validators.py)

Each regex of the ordered `INJECTION_PATTERNS` list is implemented as a
matcher `Option Char → List Char → Bool` receiving the character before the
match position (for lookbehind-style word boundaries and the `^` anchor) and
the remaining text. `re.search` is the scan `scanWithPrev` over all
positions. All matchers operate on the already lower-cased text, as the
validators do. -/

/-- Tries a matcher at every position of the text, tracking the preceding
character (`re.search`). -/
def scanWithPrev (m : Option Char → List Char → Bool) : Option Char → List Char → Bool
  | _, [] => false
  | prev, c :: cs => m prev (c :: cs) ∨ scanWithPrev m (some c) cs

/-- Consumes a literal string prefix, or fails. -/
def litPrefix (lit : List Char) (cs : List Char) : Option (List Char) :=
  if lit.isPrefixOf cs then some (cs.drop lit.length) else Option.none

/-- Consumes `\s*`. -/
def skipWs (cs : List Char) : List Char :=
  cs.dropWhile pyIsSpace

/-- Consumes `\s+`, or fails. -/
def ws1 (cs : List Char) : Option (List Char) :=
  match cs with
  | c :: rest => if pyIsSpace c then some (rest.dropWhile pyIsSpace) else Option.none
  | [] => Option.none

/-- Consumes `\d+`, or fails. -/
def digits1 (cs : List Char) : Option (List Char) :=
  match cs with
  | c :: _ => if pyIsDigit c then some (cs.dropWhile pyIsDigit) else Option.none
  | [] => Option.none

/-- Consumes the optional quote class `['\"]?`. -/
def optQuote (cs : List Char) : List Char :=
  match cs with
  | c :: rest => if c = '\x27' ∨ c = '"' then rest else cs
  | [] => cs

/-- Consumes one of the alternatives `(or|and)`, or fails. -/
def orAnd (cs : List Char) : Option (List Char) :=
  match litPrefix ['o', 'r'] cs with
  | some rest => some rest
  | Option.none => litPrefix ['a', 'n', 'd'] cs

/-- Is the preceding position a word boundary (`\b` before a word
character)? -/
def atWordBoundary (prev : Option Char) : Bool :=
  match prev with
  | some p => ¬ isWordChar p
  | Option.none => true

/-- Matcher for `\x00` (null byte). -/
def mhNullByte (_ : Option Char) (cs : List Char) : Bool :=
  match cs with
  | c :: _ => c = '\x00'
  | [] => false

/-- Matcher for `javascript\s*:`. -/
def mhJsProtocol (_ : Option Char) (cs : List Char) : Bool :=
  match litPrefix "javascript".data cs with
  | some rest => (skipWs rest).head? = some ':'
  | Option.none => false

/-- Matcher for `<\s*(script|iframe|object|embed|form|input|button)`. -/
def mhXssTag (_ : Option Char) (cs : List Char) : Bool :=
  match cs with
  | '<' :: rest =>
    let r := skipWs rest
    ["script", "iframe", "object", "embed", "form", "input", "button"].any
      (fun kw => kw.data.isPrefixOf r)
  | _ => false

/-- Matcher for `\bon\w+\s*=` (event handlers). -/
def mhEventHandler (prev : Option Char) (cs : List Char) : Bool :=
  atWordBoundary prev &&
    match litPrefix ['o', 'n'] cs with
    | some rest =>
      let w := rest.takeWhile isWordChar
      !w.isEmpty && (skipWs (rest.dropWhile isWordChar)).head? = some '='
    | Option.none => false

/-- Matcher for `\.\.[/\\]` (path traversal). -/
def mhPathTraversal (_ : Option Char) (cs : List Char) : Bool :=
  match cs with
  | '.' :: '.' :: c :: _ => c = '/' ∨ c = '\\'
  | _ => false

/-- Shared tail of the two system-path patterns:
`[/\\](etc|usr|var|tmp)[/\\]`. -/
def sysPathTail (cs : List Char) : Bool :=
  match cs with
  | c :: rest =>
    (c = '/' ∨ c = '\\') &&
      ["etc", "usr", "var", "tmp"].any (fun kw =>
        match litPrefix kw.data rest with
        | some (d :: _) => d = '/' ∨ d = '\\'
        | _ => false)
  | [] => false

/-- Matcher for `^[/\\](etc|usr|var|tmp)[/\\]` (system path at string
start; the `^` anchor is the absence of a preceding character). -/
def mhSystemPathStart (prev : Option Char) (cs : List Char) : Bool :=
  prev.isNone && sysPathTail cs

/-- Matcher for `\s[/\\](etc|usr|var|tmp)[/\\]` (system path after a
space). -/
def mhSystemPathSpace (_ : Option Char) (cs : List Char) : Bool :=
  match cs with
  | c :: rest => pyIsSpace c && sysPathTail rest
  | [] => false

/-- Matcher for `'\s*(or|and)\s*['\"]?\s*\d+\s*=\s*['\"]?\s*\d+` with a given
opening quote (the two SQL boolean patterns with spaces). -/
def mhSqlBoolSpaced (q : Char) (_ : Option Char) (cs : List Char) : Bool :=
  match cs with
  | c :: rest =>
    c = q &&
      (match orAnd (skipWs rest) with
      | some r1 =>
        (match digits1 (skipWs (optQuote (skipWs r1))) with
        | some r2 =>
          (match (skipWs r2).head? with
          | some '=' =>
            (digits1 (skipWs (optQuote (skipWs ((skipWs r2).drop 1))))).isSome
          | _ => false)
        | Option.none => false)
      | Option.none => false)
  | [] => false

/-- Matcher for `'(or|and)['\"]?\d+['\"]?=['\"]?\d+` with a given opening
quote (the no-space SQL boolean patterns). -/
def mhSqlBoolTight (q : Char) (_ : Option Char) (cs : List Char) : Bool :=
  match cs with
  | c :: rest =>
    c = q &&
      (match orAnd rest with
      | some r1 =>
        (match digits1 (optQuote r1) with
        | some r2 =>
          (match (optQuote r2) with
          | '=' :: r3 => (digits1 (optQuote r3)).isSome
          | _ => false)
        | Option.none => false)
      | Option.none => false)
  | [] => false

/-- Matcher for `'\s*(or|and)\s+` with a given opening quote. -/
def mhSqlBoolSimple (q : Char) (_ : Option Char) (cs : List Char) : Bool :=
  match cs with
  | c :: rest =>
    c = q &&
      (match orAnd (skipWs rest) with
      | some r1 => (ws1 r1).isSome
      | Option.none => false)
  | [] => false

/-- Matcher for `'(or|and)` with a given opening quote. -/
def mhSqlBoolBare (q : Char) (_ : Option Char) (cs : List Char) : Bool :=
  match cs with
  | c :: rest => c = q && (orAnd rest).isSome
  | [] => false

/-- Matcher for a word-bounded keyword alternation
`\b(kw1|kw2|...)\b`. -/
def mhKeywords (kws : List String) (prev : Option Char) (cs : List Char) : Bool :=
  atWordBoundary prev &&
    kws.any (fun kw =>
      match litPrefix kw.data cs with
      | some rest =>
        match rest.head? with
        | some d => !isWordChar d
        | Option.none => true
      | Option.none => false)

/-- Matcher for `(--|/\*|\*/|@@|@)` (SQL comment markers). -/
def mhSqlComment (_ : Option Char) (cs : List Char) : Bool :=
  [['-', '-'], ['/', '*'], ['*', '/'], ['@', '@'], ['@']].any
    (fun lit => lit.isPrefixOf cs)

/-- Matcher for the command-injection character class `[;&|`$()]` (the
backquote is written by code point). -/
def mhCmdChars (_ : Option Char) (cs : List Char) : Bool :=
  match cs with
  | c :: _ =>
    c = ';' ∨ c = '&' ∨ c = '|' ∨ c = Char.ofNat 96 ∨ c = '$' ∨ c = '(' ∨ c = ')'
  | [] => false

/-- Matcher for `__(proto|constructor|prototype)__`. -/
def mhProtoPollution (_ : Option Char) (cs : List Char) : Bool :=
  ["__proto__", "__constructor__", "__prototype__"].any
    (fun kw => kw.data.isPrefixOf cs)

/-- The ordered `INJECTION_PATTERNS` list: a matcher paired with the attack
label the source attaches to the pattern. -/
def INJECTION_PATTERNS : List ((Option Char → List Char → Bool) × String) :=
  [ (mhNullByte, "Null byte injection"),
    (mhJsProtocol, "JavaScript protocol"),
    (mhXssTag, "XSS tag injection"),
    (mhEventHandler, "Event handler injection"),
    (mhPathTraversal, "Path traversal"),
    (mhSystemPathStart, "System path access"),
    (mhSystemPathSpace, "System path access"),
    (mhSqlBoolSpaced '\x27', "SQL boolean injection"),
    (mhSqlBoolSpaced '"', "SQL boolean injection"),
    (mhSqlBoolTight '\x27', "SQL boolean injection"),
    (mhSqlBoolTight '"', "SQL boolean injection"),
    (mhSqlBoolSimple '\x27', "SQL boolean injection"),
    (mhSqlBoolSimple '"', "SQL boolean injection"),
    (mhSqlBoolBare '\x27', "SQL boolean injection"),
    (mhSqlBoolBare '"', "SQL boolean injection"),
    (mhKeywords ["union", "select", "insert", "update", "delete", "drop", "create",
      "alter", "exec", "execute", "declare", "cast", "convert"], "SQL injection"),
    (mhSqlComment, "SQL comment injection"),
    (mhCmdChars, "Command injection"),
    (mhKeywords ["sh", "bash", "cmd", "powershell", "nc", "netcat", "wget", "curl"],
      "Command execution"),
    (mhProtoPollution, "Prototype pollution") ]

/-- The injection screen applied to an already lower-cased value: the label
of the first pattern in order that matches anywhere in the text, if any. -/
def checkInjection (value_lower : String) : Option String :=
  match INJECTION_PATTERNS.find? (fun p => scanWithPrev p.1 Option.none value_lower.data) with
  | some p => some p.2
  | Option.none => Option.none

/-! ### Security validators (src/vault/utils/security/validators.py)

The validators consult the process-global bypass state through
`is_bypass_active()`; the model passes that flag explicitly as a `bypass`
argument. The `@monitor_validation` decorator only records metrics and
re-raises, so it does not appear in the value-level model. -/

/-- Size constant `MAX_CONTENT_SIZE` (1 MiB). -/
def MAX_CONTENT_SIZE : Nat := 1 * 1024 * 1024

/-- Size constant `MAX_STRING_LENGTH` (10 KiB). -/
def MAX_STRING_LENGTH : Nat := 10 * 1024

/-- Depth constant `MAX_JSON_DEPTH`. -/
def MAX_JSON_DEPTH : Nat := 100

/-- Unicode compatibility normalization (NFKC) of one character, modelled on
the characters this development uses: the ligature `ﬁ` decomposes to `fi`,
the circled digit `①` to `1`, everything else (ASCII and the other
characters appearing here) is NFKC-stable and maps to itself. -/
def nfkcChar (c : Char) : String :=
  if c = 'ﬁ' then "fi"
  else if c = '①' then "1"
  else String.mk [c]

/-- Python `unicodedata.normalize('NFKC', s)` under the character table of
`nfkcChar`. -/
def nfkc (s : String) : String :=
  String.mk (s.data.flatMap (fun c => (nfkcChar c).data))

/-- Error-code mapping for a matched injection label in `validate_role`
(lines 138-148 of validators.py): substring tests on the lower-cased attack
label, most specific first, defaulting to `INJECTION_SQL`. -/
def roleInjectionCode (attack_type : String) : ErrorCode :=
  let low := pyLower attack_type
  if strContains low "null byte" then .INJECTION_NULLBYTE
  else if strContains low "xss" ∨ strContains low "javascript" ∨
      strContains low "event handler" then .INJECTION_XSS
  else if strContains low "command injection" ∨ strContains low "command execution" then
    .INJECTION_COMMAND
  else if strContains low "path traversal" then .INJECTION_PATH_TRAVERSAL
  else if strContains low "sql" then .INJECTION_SQL
  else .INJECTION_SQL

/-- Error-code mapping in `validate_agent_context`'s field loop (lines
372-381): note the case-sensitive `"XSS" in attack_type` test and the
coarser buckets, which differ from `validate_role`'s mapping. -/
def contextInjectionCode (attack_type : String) : ErrorCode :=
  let low := pyLower attack_type
  if strContains attack_type "XSS" then .INJECTION_XSS
  else if strContains low "command" ∨ strContains low "shell" then .INJECTION_COMMAND
  else if strContains low "path" then .INJECTION_PATH_TRAVERSAL
  else if strContains low "null" then .INJECTION_NULLBYTE
  else .INJECTION_SQL

/-- Error-code mapping in `validate_nested_value` (lines 448-458), identical
to `validate_role`'s. -/
def nestedInjectionCode (attack_type : String) : ErrorCode :=
  roleInjectionCode attack_type

/-- The post-trim pipeline of `validate_role` on the stripped role string:
NFKC normalization, the 100-character cap and the injection screen. -/
def validateRoleString (stripped_role : String) (source : String) :
    Except ValidationError String :=
  if stripped_role = "" then
    .error (create_error .FIELD_EMPTY (some (source ++ " role")) [])
  else if (nfkc stripped_role).length > 100 then
    .error (create_error .SIZE_TOO_LARGE (some (source ++ " role"))
      [("max_length", "100"), ("actual_length", toString (nfkc stripped_role).length)])
  else
    match checkInjection (pyLower (nfkc stripped_role)) with
    | some attack_type =>
      .error (create_error (roleInjectionCode attack_type) (some (source ++ " role"))
        [("pattern", attack_type),
         ("value_snippet", (pyLower (nfkc stripped_role)).take 50)])
    | Option.none => .ok (nfkc stripped_role)

/-- The non-bypass body of `validate_role`, dispatching on the role's
type. -/
def validateRoleMain : PyVal → String → Except ValidationError String
  | .none, source => .error (create_error .FIELD_REQUIRED (some (source ++ " role")) [])
  | .str s, source => validateRoleString (pyStrip s) source
  | _, source => .error (create_error .TYPE_STRING_EXPECTED (some (source ++ " role")) [])

/-- The `validate_role` function. With a bypass active it returns
`str(role)` (or `"anonymous"` for a missing role) unchecked; otherwise the
role must be a non-empty string, is trimmed, NFKC-normalized, length-capped
at 100 and screened against the injection patterns. -/
def validate_role (role : PyVal) (source : String) (bypass : Bool) :
    Except ValidationError String :=
  if bypass then
    .ok (match role with
      | .none => "anonymous"
      | v => pyStr v)
  else
    validateRoleMain role source

/-- The optional fractional part of the float grammar: a leading decimal
point takes the following digits as the fraction; otherwise the fraction is
empty and the input is left for the exponent stage. Returns
`(fraction digits, remainder)`. -/
def splitFrac : List Char → List Char × List Char
  | '.' :: r2 => (r2.takeWhile pyIsDigit, r2.dropWhile pyIsDigit)
  | r1 => ([], r1)

/-- Common tail of `parseExpDigits` after the optional sign: at least one
digit and nothing else. -/
def parseExpTail (eneg : Bool) (r5 : List Char) : Option (Bool × Nat) :=
  if (r5.takeWhile pyIsDigit).isEmpty ∨ ¬ (r5.dropWhile pyIsDigit).isEmpty then Option.none
  else some (eneg, digitsToNat (r5.takeWhile pyIsDigit))

/-- The exponent tail of the float grammar, after the `e` marker: an
optional sign followed by at least one digit and nothing else. Returns the
sign and the exponent magnitude. -/
def parseExpDigits : List Char → Option (Bool × Nat)
  | '-' :: r5 => parseExpTail true r5
  | '+' :: r5 => parseExpTail false r5
  | r => parseExpTail false r

/-- The signed integer numerator of a mantissa with integer digits `ip` and
fraction digits `fp` (the mantissa value is this over `10 ^ fp.length`). -/
def mantNum (neg : Bool) (ip fp : List Char) : ℤ :=
  if neg then -(digitsToNat ip * 10 ^ fp.length + digitsToNat fp : ℕ)
  else (digitsToNat ip * 10 ^ fp.length + digitsToNat fp : ℕ)

/-- The mantissa-and-exponent stage of the float grammar, after the sign and
the word spellings: at least one digit overall, then nothing, or an exponent
part. -/
def parseMantTail (neg : Bool) (ip fp r3 : List Char) : Option PyFloat :=
  if ip.isEmpty ∧ fp.isEmpty then Option.none
  else
    match r3 with
    | [] => some (.finite (mkRat (mantNum neg ip fp) (10 ^ fp.length)))
    | 'e' :: r4 =>
      match parseExpDigits r4 with
      | Option.none => Option.none
      | some (eneg, e) =>
        some (.finite (if eneg then mkRat (mantNum neg ip fp) (10 ^ fp.length * 10 ^ e)
          else mkRat (mantNum neg ip fp * 10 ^ e) (10 ^ fp.length)))
    | _ => Option.none

/-- Signed-mantissa-and-exponent parse of Python's `float(str)` grammar
(after stripping and lower-casing): optional sign, then `inf`, `infinity`,
`nan`, or decimal digits with optional fraction and optional exponent.
Underscore digit grouping is not modelled. -/
def parseFloatBody (neg : Bool) (cs : List Char) : Option PyFloat :=
  if cs = "inf".data ∨ cs = "infinity".data then some (if neg then .negInf else .inf)
  else if cs = "nan".data then some .nan
  else
    parseMantTail neg (cs.takeWhile pyIsDigit)
      (splitFrac (cs.dropWhile pyIsDigit)).1 (splitFrac (cs.dropWhile pyIsDigit)).2

/-- Python `float(s)` on a string: strips whitespace, case-folds, accepts an
optional sign and the `parseFloatBody` grammar. Returns `none` where Python
raises `ValueError`. (Finite results are exact rationals; the model does not
round to binary, nor overflow large exponents to `inf`.) -/
def pyFloatParse (s : String) : Option PyFloat :=
  match (pyStrip (pyLower s)).data with
  | '-' :: r => parseFloatBody true r
  | '+' :: r => parseFloatBody false r
  | r => parseFloatBody false r

/-- The special-value and range checks at the tail of
`validate_trust_score`: `nan` and the infinities are rejected, then the
value must lie in `[0, 100]`. -/
def validateTrustRange (numeric_score : PyFloat) (source : String) :
    Except ValidationError (Option PyFloat) :=
  match numeric_score with
  | .nan => .error (create_error .VALUE_SPECIAL_NUMBER (some (source ++ " trustScore")) [])
  | .inf => .error (create_error .VALUE_SPECIAL_NUMBER (some (source ++ " trustScore")) [])
  | .negInf => .error (create_error .VALUE_SPECIAL_NUMBER (some (source ++ " trustScore")) [])
  | .finite q =>
    if q < 0 ∨ q > 100 then
      .error (create_error .VALUE_OUT_OF_RANGE (some (source ++ " trustScore"))
        [("min", "0"), ("max", "100")])
    else
      .ok (some (.finite q))

/-- The string arm of `validate_trust_score`: screens the `inf` spellings
(substring test on the lower-cased stripped value) and `nan`, then converts
with `float()`. -/
def validateTrustString (s : String) (source : String) :
    Except ValidationError (Option PyFloat) :=
  if strContains (pyStrip (pyLower s)) "inf" then
    .error (create_error .VALUE_SPECIAL_NUMBER (some (source ++ " trustScore")) [])
  else if pyStrip (pyLower s) = "nan" then
    .error (create_error .VALUE_SPECIAL_NUMBER (some (source ++ " trustScore")) [])
  else
    match pyFloatParse s with
    | Option.none =>
      .error (create_error .TYPE_NUMBER_EXPECTED (some (source ++ " trustScore")) [])
    | some numeric_score => validateTrustRange numeric_score source

/-- The non-bypass body of `validate_trust_score`, dispatching on the
score's type. -/
def validateTrustMain : PyVal → Bool → String → Except ValidationError (Option PyFloat)
  | .none, required, source =>
    if required then
      .error (create_error .FIELD_REQUIRED (some (source ++ " trustScore")) [])
    else
      .ok Option.none
  | .bool _, _, source =>
    .error (create_error .VALUE_SPECIAL_NUMBER (some (source ++ " trustScore")) [])
  | .str s, _, source => validateTrustString s source
  | .int n, _, source => validateTrustRange (.finite n) source
  | .float f, _, source => validateTrustRange f source
  | _, _, source =>
    .error (create_error .TYPE_NUMBER_EXPECTED (some (source ++ " trustScore")) [])

/-- The `validate_trust_score` function. With no bypass: `None` fails when
required and passes through when optional; booleans are rejected; strings
are screened for `inf`-containing and `nan` spellings, then converted with
`float()`; the converted value must be finite and in `[0, 100]`. With a
bypass: missing scores default (to `0.0` when required), every other value
is `float(score)` with failures defaulting to `0.0`. -/
def validate_trust_score (score : PyVal) (required : Bool) (source : String) (bypass : Bool) :
    Except ValidationError (Option PyFloat) :=
  if bypass then
    match score with
    | .none => .ok (if required then some (.finite 0) else Option.none)
    | .str s =>
      .ok (some (match pyFloatParse s with
        | some f => f
        | Option.none => .finite 0))
    | .int n => .ok (some (.finite n))
    | .float f => .ok (some f)
    | .bool b => .ok (some (.finite (if b then 1 else 0)))
    | _ => .ok (some (.finite 0))
  else
    validateTrustMain score required source


/-- Is the key one of the prototype-pollution keys that the validators drop
silently? -/
def isPollutionKey (key : String) : Bool :=
  key = "__proto__" ∨ key = "constructor" ∨ key = "prototype"

mutual

/-- The `validate_nested_value` function: depth check at entry, then strings
are length-capped, NFKC-normalized and injection-screened; dicts drop
pollution keys and recurse; lists recurse; every other value passes
through. -/
def validate_nested_value (value : PyVal) (path : String) (current_depth : Nat) :
    Except ValidationError PyVal :=
  if current_depth > MAX_JSON_DEPTH then
    .error (create_error .DEPTH_EXCEEDED Option.none
      [("max_depth", toString MAX_JSON_DEPTH), ("current_depth", toString current_depth)])
  else
    match value with
    | .str s =>
      if s.length > MAX_STRING_LENGTH then
        .error (create_error .SIZE_TOO_LARGE (some path)
          [("max_length", toString MAX_STRING_LENGTH), ("actual_length", toString s.length)])
      else
        let normalized := nfkc s
        match checkInjection (pyLower normalized) with
        | some attack_type =>
          .error (create_error (nestedInjectionCode attack_type) (some path)
            [("pattern", attack_type)])
        | Option.none => .ok (.str normalized)
    | .dict xs =>
      match validateNestedFields xs path current_depth with
      | .ok ys => .ok (.dict ys)
      | .error e => .error e
    | .list xs =>
      match validateNestedItems xs path 0 current_depth with
      | .ok ys => .ok (.list ys)
      | .error e => .error e
    | v => .ok v

/-- The dict arm of `validate_nested_value`: pollution keys are dropped,
each remaining value recurses one level deeper at path `path.key`. -/
def validateNestedFields (xs : List (String × PyVal)) (path : String) (current_depth : Nat) :
    Except ValidationError (List (String × PyVal))  :=
  match xs with
  | [] => .ok []
  | (key, val) :: rest =>
    if isPollutionKey key then
      validateNestedFields rest path current_depth
    else
      match validate_nested_value val (path ++ "." ++ key) (current_depth + 1) with
      | .error e => .error e
      | .ok v2 =>
        match validateNestedFields rest path current_depth with
        | .error e => .error e
        | .ok ys => .ok ((key, v2) :: ys)

/-- The list arm of `validate_nested_value`: each item recurses one level
deeper at path `path[i]`. -/
def validateNestedItems (xs : List PyVal) (path : String) (i : Nat) (current_depth : Nat) :
    Except ValidationError (List PyVal) :=
  match xs with
  | [] => .ok []
  | val :: rest =>
    match validate_nested_value val (path ++ "[" ++ toString i ++ "]") (current_depth + 1) with
    | .error e => .error e
    | .ok v2 =>
      match validateNestedItems rest path (i + 1) current_depth with
      | .error e => .error e
      | .ok ys => .ok (v2 :: ys)

end

mutual

/-- The `validate_json_depth` function: raises `DEPTH_EXCEEDED` as soon as
the nesting level passes `MAX_JSON_DEPTH`; dict values and list items count
one level each. -/
def validate_json_depth (obj : PyVal) (current_depth : Nat) : Except ValidationError Unit :=
  if current_depth > MAX_JSON_DEPTH then
    .error (create_error .DEPTH_EXCEEDED Option.none
      [("max_depth", toString MAX_JSON_DEPTH), ("current_depth", toString current_depth)])
  else
    match obj with
    | .dict xs => jsonDepthFields xs current_depth
    | .list xs => jsonDepthItems xs current_depth
    | _ => .ok ()

/-- Depth check of every value of a dict. -/
def jsonDepthFields (xs : List (String × PyVal)) (current_depth : Nat) :
    Except ValidationError Unit :=
  match xs with
  | [] => .ok ()
  | (_, v) :: rest =>
    match validate_json_depth v (current_depth + 1) with
    | .error e => .error e
    | .ok _ => jsonDepthFields rest current_depth

/-- Depth check of every item of a list. -/
def jsonDepthItems (xs : List PyVal) (current_depth : Nat) : Except ValidationError Unit :=
  match xs with
  | [] => .ok ()
  | v :: rest =>
    match validate_json_depth v (current_depth + 1) with
    | .error e => .error e
    | .ok _ => jsonDepthItems rest current_depth

end

/-- The field loop of `validate_agent_context` (lines 347-392): `role` and
`trustScore` are skipped (already handled), pollution keys are dropped,
string fields are length-capped on their raw value, NFKC-normalized and
injection-screened, and every other value goes through
`validate_nested_value` at depth 0. -/
def processContextFields (source : String) :
    List (String × PyVal) → Except ValidationError (List (String × PyVal))
  | [] => .ok []
  | (key, value) :: rest =>
    if key = "role" ∨ key = "trustScore" then
      processContextFields source rest
    else if isPollutionKey key then
      processContextFields source rest
    else
      match value with
      | .str s =>
        if s.length > MAX_STRING_LENGTH then
          .error (create_error .SIZE_TOO_LARGE (some (source ++ "." ++ key))
            [("max_length", toString MAX_STRING_LENGTH), ("actual_length", toString s.length)])
        else
          let normalized := nfkc s
          match checkInjection (pyLower normalized) with
          | some attack_type =>
            .error (create_error (contextInjectionCode attack_type)
              (some (source ++ "." ++ key)) [("pattern", attack_type)])
          | Option.none =>
            match processContextFields source rest with
            | .error e => .error e
            | .ok ys => .ok ((key, .str normalized) :: ys)
      | v =>
        match validate_nested_value v (source ++ "." ++ key) 0 with
        | .error e => .error e
        | .ok v2 =>
          match processContextFields source rest with
          | .error e => .error e
          | .ok ys => .ok ((key, v2) :: ys)

/-- The trustScore step of `validate_agent_context`: with `source = "agent"`
the field is required; with `source = "agent-redact"` it is optional and
only a non-`None` validated value is stored; any other source skips the
field entirely (the field loop also skips the key, so it is dropped).
Returns the `trustScore` entries to add to the validated context. -/
def contextTrustStep (xs : List (String × PyVal)) (source : String) (bypass : Bool) :
    Except ValidationError (List (String × PyVal)) :=
  if source = "agent" then
    match pyLookup xs "trustScore" with
    | Option.none =>
      .error (create_error .FIELD_REQUIRED (some (source ++ ".trustScore")) [])
    | some tsV =>
      match validate_trust_score tsV true source bypass with
      | .error e => .error e
      | .ok (some f) => .ok [("trustScore", .float f)]
      | .ok Option.none => .ok [("trustScore", .none)]
  else if source = "agent-redact" then
    match pyLookup xs "trustScore" with
    | Option.none => .ok []
    | some tsV =>
      match validate_trust_score tsV false source bypass with
      | .error e => .error e
      | .ok (some f) => .ok [("trustScore", .float f)]
      | .ok Option.none => .ok []
  else
    .ok []

/-- The tail of `validate_agent_context` on the assembled validated context:
the `validate_json_depth` pass and the final serialized-size check. -/
def finalizeContext (validated : List (String × PyVal)) (source : String) :
    Except ValidationError (List (String × PyVal)) :=
  match validate_json_depth (.dict validated) 0 with
  | .error e => .error e
  | .ok _ =>
    if (pyRepr (.dict validated)).length > MAX_CONTENT_SIZE then
      .error (create_error .DOS_LARGE_PAYLOAD (some source)
        [("size", toString (pyRepr (.dict validated)).length),
         ("max_size", toString MAX_CONTENT_SIZE)])
    else
      .ok validated

/-- The dict body of `validate_agent_context`: emptiness and serialized-size
checks, the required `role`, the per-source `trustScore` step, the field
loop, then `finalizeContext`. -/
def validateContextDict (xs : List (String × PyVal)) (source : String) (bypass : Bool) :
    Except ValidationError (List (String × PyVal)) :=
  if xs.isEmpty then
    .error (create_error .FIELD_EMPTY (some source) [])
  else if (pyRepr (.dict xs)).length > MAX_CONTENT_SIZE then
    .error (create_error .DOS_LARGE_PAYLOAD (some source)
      [("size", toString (pyRepr (.dict xs)).length),
       ("max_size", toString MAX_CONTENT_SIZE)])
  else
    match pyLookup xs "role" with
    | Option.none =>
      .error (create_error .FIELD_REQUIRED (some (source ++ ".role")) [])
    | some roleV =>
      match validate_role roleV source bypass with
      | .error e => .error e
      | .ok roleStr =>
        match contextTrustStep xs source bypass with
        | .error e => .error e
        | .ok tsEntries =>
          match processContextFields source xs with
          | .error e => .error e
          | .ok fieldEntries =>
            finalizeContext (("role", PyVal.str roleStr) :: tsEntries ++ fieldEntries) source

/-- The non-bypass body of `validate_agent_context`, dispatching on the
context's type. -/
def validateContextMain : PyVal → String → Bool → Except ValidationError (List (String × PyVal))
  | .dict xs, source, bypass => validateContextDict xs source bypass
  | _, source, _ => .error (create_error .TYPE_DICT_EXPECTED (some source) [])

/-- The `validate_agent_context` function. With a bypass active, a dict
passes through unchecked and anything else becomes the anonymous default
context. Otherwise: must be a non-empty dict, the `str()`-serialized size is
capped at `MAX_CONTENT_SIZE`, `role` is required and validated,
`trustScore` handled per source, the remaining fields are screened, the
validated result is depth-checked and size-checked again. -/
def validate_agent_context (context : PyVal) (source : String) (bypass : Bool) :
    Except ValidationError (List (String × PyVal)) :=
  if bypass then
    match context with
    | .dict xs => .ok xs
    | _ => .ok [("role", .str "anonymous"), ("trustScore", .float (.finite 0))]
  else
    validateContextMain context source bypass

/-! ### Runtime bypass manager (src/vault/utils/security/runtime_bypass.py)

The manager's mutable table and the wall clock (`time.time()`) and calling
thread (`threading.get_ident()`) are passed explicitly: each operation takes
the current state, the current time `now` and the thread id `tid`. The
metrics side effects (`record_bypass_use`, logging) have no value-level
content. -/

/-- Python `int(t)` for the non-negative wall-clock times used here. -/
def pyIntOfTime (t : ℚ) : ℤ :=
  ⌊t⌋

/-- The `BypassContext` object: reason, duration, user, start and end times
and the derived identifier `bypass_<int(start_time)>_<thread id>`. -/
structure BypassContext where
  reason : String
  duration_seconds : ℤ
  user : String
  start_time : ℚ
  end_time : ℚ
  bypass_id : String
deriving Repr, DecidableEq

/-- `BypassContext.__init__`: `end_time = start_time + duration_seconds`,
`user` defaults to `"unknown"`, and the identifier embeds the integer start
time and the creating thread's id. -/
def BypassContext.create (reason : String) (duration_seconds : ℤ) (user : Option String)
    (now : ℚ) (tid : Nat) : BypassContext :=
  { reason := reason
    duration_seconds := duration_seconds
    user := user.getD "unknown"
    start_time := now
    end_time := now + duration_seconds
    bypass_id := "bypass_" ++ toString (pyIntOfTime now) ++ "_" ++ toString tid }

/-- `BypassContext.is_active`: strict wall-clock comparison against the
expiry time. -/
def BypassContext.is_active (b : BypassContext) (now : ℚ) : Bool :=
  now < b.end_time

/-- The `BypassManager` state: the per-thread bypass table and the optional
global bypass. -/
structure BypassManager where
  bypasses : List (Nat × BypassContext)
  global_bypass : Option BypassContext
deriving Repr, DecidableEq

/-- Sets the binding of a thread id in the bypass table
(`self._bypasses[thread_id] = bypass`): replaces an existing binding,
otherwise appends. -/
def bypassTableSet (table : List (Nat × BypassContext)) (tid : Nat) (b : BypassContext) :
    List (Nat × BypassContext) :=
  if table.any (fun kv => kv.1 = tid) then
    table.map (fun kv => if kv.1 = tid then (tid, b) else kv)
  else
    table ++ [(tid, b)]

/-- Looks up a thread's bypass (`self._bypasses[thread_id]`). -/
def bypassTableGet (table : List (Nat × BypassContext)) (tid : Nat) : Option BypassContext :=
  match table.find? (fun kv => kv.1 = tid) with
  | some kv => some kv.2
  | Option.none => Option.none

/-- `BypassManager.create_bypass`: builds a fresh `BypassContext` and
installs it, globally or into the calling thread's table slot (overwriting
whatever was there). Returns the updated manager and the new context. -/
def BypassManager.create_bypass (m : BypassManager) (reason : String)
    (duration_seconds : ℤ) (user : Option String) (global_bypass : Bool)
    (now : ℚ) (tid : Nat) : BypassManager × BypassContext :=
  let bypass := BypassContext.create reason duration_seconds user now tid
  if global_bypass then
    ({ m with global_bypass := some bypass }, bypass)
  else
    ({ m with bypasses := bypassTableSet m.bypasses tid bypass }, bypass)

/-- `BypassManager.get_active_bypass`: the active global bypass if any,
otherwise the calling thread's bypass when still active. -/
def BypassManager.get_active_bypass (m : BypassManager) (now : ℚ) (tid : Nat) :
    Option BypassContext :=
  match m.global_bypass with
  | some g =>
    if g.is_active now then some g
    else
      match bypassTableGet m.bypasses tid with
      | some b => if b.is_active now then some b else Option.none
      | Option.none => Option.none
  | Option.none =>
    match bypassTableGet m.bypasses tid with
    | some b => if b.is_active now then some b else Option.none
    | Option.none => Option.none

/-- `BypassManager.is_bypass_active`: like `get_active_bypass` but also
evicting an expired thread-local bypass lazily; returns the flag and the
updated state. -/
def BypassManager.is_bypass_active (m : BypassManager) (now : ℚ) (tid : Nat) :
    Bool × BypassManager :=
  let globalActive :=
    match m.global_bypass with
    | some g => g.is_active now
    | Option.none => false
  if globalActive then (true, m)
  else
    match bypassTableGet m.bypasses tid with
    | some b =>
      if b.is_active now then (true, m)
      else (false, { m with bypasses := m.bypasses.filter (fun kv => kv.1 ≠ tid) })
    | Option.none => (false, m)

/-- Did evaluating this condition raise an `InvalidConditionError` (the class
the policy engine's loop skips)? -/
def condSkipped (context : List (String × PyVal)) (c : String) : Bool :=
  match evaluate_condition c context with
  | .error (.invalidCondition _) => true
  | _ => false

/-- The skipped-condition diagnostic the policy engine records for a
condition whose evaluation raised an `InvalidConditionError`. -/
def skipMsgOf (context : List (String × PyVal)) (c : String) : String :=
  match evaluate_condition c context with
  | .error (.invalidCondition m) => "Skipped invalid condition \x27" ++ c ++ "\x27: " ++ m
  | _ => ""

/-- The category of the error of a failed validation, if it failed. -/
def errCategory {α : Type} : Except ValidationError α → Option ErrorCategory
  | .error e => some e.category
  | .ok _ => Option.none

/-- The code of the error of a failed validation, if it failed. -/
def errCode {α : Type} : Except ValidationError α → Option ErrorCode
  | .error e => some e.code
  | .ok _ => Option.none

/-- Did the validation fail? -/
def isVErr {α : Type} : Except ValidationError α → Bool
  | .error _ => true
  | .ok _ => false

/-- A dict nested `k` levels deep (`{"a": {"a": ... 0 ...}}`), used to probe
the depth guards. -/
def nestD : Nat → PyVal
  | 0 => .int 0
  | k + 1 => .dict [("a", nestD k)]

/-- A benign context whose only oddity is a deeply nested field: role and
trust score are valid, `x` is a chain of `n` nested dicts. -/
def deepCtx (n : Nat) : PyVal :=
  .dict [("role", .str "user"), ("trustScore", .int 50), ("x", nestD n)]

/-- The depth-limit error every nesting overflow in this development
produces: the first violating level is always 101. -/
def depthErr101 : ValidationError :=
  create_error .DEPTH_EXCEEDED Option.none [("max_depth", "100"), ("current_depth", "101")]

/-- The character alphabet of a finite (digit-grammar) float-string parse:
digits, the decimal point, the exponent marker and the signs. -/
def allowedFloatChar (c : Char) : Bool :=
  pyIsDigit c ∨ c = '.' ∨ c = 'e' ∨ c = '+' ∨ c = '-'

/-- A run of `n` copies of the ligature `ﬁ` (U+FB01), whose NFKC
normalization doubles its length. -/
def fiInput (n : Nat) : String :=
  String.mk (List.replicate n 'ﬁ')

/-- The NFKC normalization of `fiInput n`: `fi` repeated `n` times. -/
def fiNorm (n : Nat) : String :=
  String.mk (List.flatten (List.replicate n ['f', 'i']))

mutual

/-- Every string value appearing in the value (at any depth) is within the
per-string cap `MAX_STRING_LENGTH`. Unicode normalization can lengthen a
string (the length cap is checked on the raw value, the stored value is the
normalized one), so a validated context can carry strings over the cap that
fail re-validation. -/
def stringsWithinCap : PyVal → Bool
  | .str s => s.length ≤ MAX_STRING_LENGTH
  | .dict xs => stringsWithinCapFields xs
  | .list xs => stringsWithinCapList xs
  | _ => true

/-- `stringsWithinCap` over dict entries. -/
def stringsWithinCapFields : List (String × PyVal) → Bool
  | [] => true
  | (_, v) :: rest => stringsWithinCap v && stringsWithinCapFields rest

/-- `stringsWithinCap` over list items. -/
def stringsWithinCapList : List PyVal → Bool
  | [] => true
  | v :: rest => stringsWithinCap v && stringsWithinCapList rest

end

/-!
## Theorems

One theorem per claim of the specification audit, with helper lemmas and
the concrete-input witnesses the hypotheses call for.
-/

/-- Claim C1. The specification's decision rule says the any-pass example
(policy `mask=["ssn"], unmask_roles=[], conditions=["trustScore > 80",
"role == 'x'"]`, context `role="y", trustScore=85`) unmasks because the
first condition passes. On the code this fails: `evaluate_condition` does
return `(True, "85.0 > 80.0 is True")` for the first condition, but the
engine unpacks that two-element tuple into three names, so the raised
`ValueError` takes the fatal arm and the policy masks everything with an
unpack-error reason. This theorem evaluates the code at that failing
input. -/
theorem C1_decision_rule_defeated_by_unpack_bug :
    evaluate_condition "trustScore > 80" [("role", .str "y"), ("trustScore", .int 85)] =
      .ok (true, "85.0 > 80.0 is True") ∧
    evaluate [("role", .str "y"), ("trustScore", .int 85)]
      { mask := ["ssn"], unmask_roles := [],
        conditions := ["trustScore > 80", "role == \x27x\x27"] } =
      { success := false,
        reason := "Error evaluating condition \x27trustScore > 80\x27: " ++
          "not enough values to unpack (expected 3, got 2)",
        fields := ["ssn"] } :=
  ⟨rfl, rfl⟩

/-- Claim C2. If the context's role is a member of the policy's
`unmask_roles`, `evaluate` returns immediately with success, no masked
fields, no condition results, the role-override flag set and the reason
`Unmasked for role '<role>'`, independently of the policy's conditions. -/
theorem C2_role_override_short_circuit (context : List (String × PyVal)) (policy : Policy)
    (r : String) (h1 : pyLookup context "role" = some (.str r))
    (h2 : r ∈ policy.unmask_roles) :
    evaluate context policy =
      { success := true
        reason := "Unmasked for role \x27" ++ r ++ "\x27"
        fields := []
        skipped_conditions := []
        condition_results := []
        passed_conditions := []
        failed_conditions := []
        unmask_role_override := true } := by
  have hc : policy.unmask_roles.contains r = true := by
    simpa using h2
  unfold evaluate roleOverrideActive
  rw [h1]
  simp [hc, pyStr]
  exact fun h => absurd h2 h

/-- Witness for C2 at a concrete input: role `"admin"` is in the policy's
unmask list, and `evaluate` returns the role-override result even though the
policy's condition would fail to evaluate. -/
theorem C2_role_override_short_circuit_witness :
    pyLookup [("role", PyVal.str "admin")] "role" = some (.str "admin") ∧
    "admin" ∈ ["admin", "auditor"] ∧
    evaluate [("role", .str "admin")]
      { mask := ["ssn"], unmask_roles := ["admin", "auditor"],
        conditions := ["trustScore > 80"] } =
      { success := true
        reason := "Unmasked for role \x27admin\x27"
        fields := []
        skipped_conditions := []
        condition_results := []
        passed_conditions := []
        failed_conditions := []
        unmask_role_override := true } :=
  ⟨rfl, by decide,
    C2_role_override_short_circuit [("role", .str "admin")]
      { mask := ["ssn"], unmask_roles := ["admin", "auditor"],
        conditions := ["trustScore > 80"] }
      "admin" rfl (by decide)⟩

/-- Claim C3. The specification says a present-but-unparsable condition
(malformed token sequence, dangling operator, invalid character) is recorded
as a skipped diagnostic and never makes the whole evaluation fail. On the
code, tokenizer failures raise `ConditionValidationError` (wrapped into a
plain `ValueError` by `evaluate_condition`), which is not the
`InvalidConditionError` class the loop skips: the policy evaluation returns
the fatal failure result at once, with nothing recorded in
`skipped_conditions` and the remaining (parseable) condition never
examined. This theorem evaluates the code at such an input. -/
theorem C3_malformed_condition_is_fatal_not_skipped :
    evaluate [("role", .str "y")]
      { mask := ["ssn"], unmask_roles := [],
        conditions := ["trustScore >> 80", "role == \x27y\x27"] } =
      { success := false,
        reason := "Error evaluating condition \x27trustScore >> 80\x27: " ++
          "Failed to evaluate condition \x27trustScore >> 80\x27: " ++
          "Invalid operator sequence \x27>>\x27 at position 11",
        fields := ["ssn"] } ∧
    evaluate_condition "role == \x27y\x27" [("role", .str "y")] =
      .ok (true, "y == y is True") :=
  ⟨rfl, rfl⟩

/-- Claim C4. The specification says `&&`/`||` split the token stream at the
first top-level occurrence and the engine recurses on both sides. On the
code, `normalize_condition` first rewrites `&&` to the word `and`, which the
tokenizer only knows as an ordinary identifier, so the evaluator finds no
boolean-operator token and every condition containing `&&` or `||` raises
`Invalid expression structure` — even though each comparison alone
evaluates fine. This theorem evaluates the code at the specification's own
example conjunction. -/
theorem C4_boolean_combinators_never_evaluate :
    evaluate_condition "trustScore > 80 && role == \x27admin\x27"
      [("trustScore", .int 85), ("role", .str "admin")] =
      .error (.valueError
        ("Failed to evaluate condition \x27trustScore > 80 && role == \x27admin\x27\x27: " ++
          "Invalid expression structure")) ∧
    evaluate_condition "trustScore > 80" [("trustScore", .int 85), ("role", .str "admin")] =
      .ok (true, "85.0 > 80.0 is True") ∧
    evaluate_condition "role == \x27admin\x27" [("trustScore", .int 85), ("role", .str "admin")] =
      .ok (true, "admin == admin is True") :=
  ⟨rfl, rfl, rfl⟩

/-- Claim C5. The specification says context values that name other fields
are dereferenced along the alias chain and that context `{a: "b", b: "a"}`
with condition `"a > 0"` raises a `CircularReferenceError` whose message
contains `a -> b -> a`. On the code there is no alias dereferencing at all:
the lookup binds `a` to the plain string `"b"` and the numeric comparison
rejects it with a `ValueError` (`Field 'a' must be numeric`), not a
circular-reference error. This theorem evaluates the code at the
specification's own cycle example. -/
theorem C5_alias_cycle_not_detected :
    evaluate_condition "a > 0" [("a", .str "b"), ("b", .str "a")] =
      .error (.valueError
        ("Failed to evaluate condition \x27a > 0\x27: " ++
          "Invalid comparison: Field \x27a\x27 must be numeric, got <class \x27str\x27>")) :=
  rfl

/-- One loop step over a condition whose evaluation raised
`InvalidConditionError`: the diagnostic is appended and the loop
continues. -/
theorem evalLoop_cons_skip (context : List (String × PyVal)) (policy : Policy) (c : String)
    (rest skipped : List String) (results : List ConditionResult)
    (passed failed : List String) (m : String)
    (hec : evaluate_condition c context = .error (.invalidCondition m)) :
    evalConditionsLoop context policy (c :: rest) skipped results passed failed =
      evalConditionsLoop context policy rest
        (skipped ++ ["Skipped invalid condition \x27" ++ c ++ "\x27: " ++ m])
        results passed failed := by
  conv_lhs => unfold evalConditionsLoop
  rw [hec]

/-- One loop step over a condition whose evaluation raised any exception
other than `InvalidConditionError`: the loop returns the fatal failure
result carrying the accumulated state. -/
theorem evalLoop_cons_fatal (context : List (String × PyVal)) (policy : Policy) (c : String)
    (rest skipped : List String) (results : List ConditionResult)
    (passed failed : List String) (e : EvalErr)
    (hec : evaluate_condition c context = .error e) (he : e.isInvalidCondition = false) :
    evalConditionsLoop context policy (c :: rest) skipped results passed failed =
      { success := false
        reason := "Error evaluating condition \x27" ++ c ++ "\x27: " ++ e.msg
        fields := policy.mask
        skipped_conditions := skipped
        condition_results := results
        passed_conditions := passed
        failed_conditions := failed
        unmask_role_override := false } := by
  conv_lhs => unfold evalConditionsLoop
  rw [hec]
  cases e with
  | invalidCondition m => simp [EvalErr.isInvalidCondition] at he
  | conditionValidation m => rfl
  | circularReference f chain => rfl
  | valueError m => rfl

/-- The condition loop walks past a prefix of skipped (invalid) conditions,
accumulating their diagnostics. -/
theorem evalLoop_skips_prefix (context : List (String × PyVal)) (policy : Policy)
    (pre rest : List String) (skipped : List String)
    (h : ∀ c' ∈ pre, condSkipped context c' = true) :
    evalConditionsLoop context policy (pre ++ rest) skipped [] [] [] =
      evalConditionsLoop context policy rest (skipped ++ pre.map (skipMsgOf context)) [] [] [] := by
  induction pre generalizing skipped with
  | nil => simp
  | cons c cs ih =>
    have hc := h c (by simp)
    unfold condSkipped at hc
    cases hec : evaluate_condition c context with
    | ok v => rw [hec] at hc; simp at hc
    | error e =>
      cases e with
      | invalidCondition m =>
        have hmsg : skipMsgOf context c = "Skipped invalid condition \x27" ++ c ++ "\x27: " ++ m := by
          unfold skipMsgOf
          rw [hec]
        simp only [List.cons_append]
        rw [evalLoop_cons_skip context policy c (cs ++ rest) skipped [] [] [] m hec]
        rw [ih _ (fun c' hc' => h c' (List.mem_cons_of_mem _ hc'))]
        rw [List.map_cons, hmsg]
        simp
      | conditionValidation m => rw [hec] at hc; simp at hc
      | circularReference f chain => rw [hec] at hc; simp at hc
      | valueError m => rw [hec] at hc; simp at hc

/-- Claim C10. When evaluating a condition raises an exception other than an
`InvalidConditionError` (the engine's parse-failure class), `evaluate` does
not propagate it: it returns a failure result whose reason quotes the error,
whose fields are the policy's whole mask list, and which carries the
skipped-condition diagnostics accumulated before the error (the accumulated
condition results are necessarily empty, and are passed along as
accumulated). -/
theorem C10_fatal_error_fails_closed (context : List (String × PyVal)) (policy : Policy)
    (pre : List String) (c : String) (post : List String) (e : EvalErr)
    (hconds : policy.conditions = pre ++ c :: post)
    (hrole : roleOverrideActive context policy = false)
    (hpre : ∀ c' ∈ pre, condSkipped context c' = true)
    (hc : evaluate_condition c context = .error e)
    (he : e.isInvalidCondition = false) :
    evaluate context policy =
      { success := false
        reason := "Error evaluating condition \x27" ++ c ++ "\x27: " ++ e.msg
        fields := policy.mask
        skipped_conditions := pre.map (skipMsgOf context)
        condition_results := []
        passed_conditions := []
        failed_conditions := []
        unmask_role_override := false } := by
  unfold evaluate
  rw [hrole]
  rw [if_neg (by simp)]
  rw [hconds, evalLoop_skips_prefix context policy pre (c :: post) [] hpre]
  rw [evalLoop_cons_fatal context policy c post _ [] [] [] e hc he]
  simp

/-- Witness for C10 at a concrete input: the first condition is whitespace
(skipped as invalid), the second needs the missing context key `role` and
raises a wrapped `ValueError`; `evaluate` returns the fatal failure result
quoting it, with the whole mask list and the one accumulated skip
diagnostic. -/
theorem C10_fatal_error_fails_closed_witness :
    ((["   "] : List String) ≠ []) ∧
    evaluate_condition "role == \x27x\x27" [("trustScore", .int 85)] =
      .error (.valueError
        ("Failed to evaluate condition \x27role == \x27x\x27\x27: " ++
          "Context key \x27role\x27 not found")) ∧
    evaluate [("trustScore", .int 85)]
      { mask := ["ssn", "email"], unmask_roles := ["admin"],
        conditions := ["   ", "role == \x27x\x27", "trustScore > 80"] } =
      { success := false
        reason := "Error evaluating condition \x27role == \x27x\x27\x27: " ++
          "Failed to evaluate condition \x27role == \x27x\x27\x27: " ++
          "Context key \x27role\x27 not found"
        fields := ["ssn", "email"]
        skipped_conditions :=
          ["Skipped invalid condition \x27   \x27: Condition cannot be whitespace only"]
        condition_results := []
        passed_conditions := []
        failed_conditions := []
        unmask_role_override := false } := by
  refine ⟨by decide, rfl, ?_⟩
  have h := C10_fatal_error_fails_closed [("trustScore", .int 85)]
    { mask := ["ssn", "email"], unmask_roles := ["admin"],
      conditions := ["   ", "role == \x27x\x27", "trustScore > 80"] }
    ["   "] "role == \x27x\x27" ["trustScore > 80"]
    (.valueError
      ("Failed to evaluate condition \x27role == \x27x\x27\x27: " ++
        "Context key \x27role\x27 not found"))
    rfl rfl (by intro c' hc'; simp at hc'; subst hc'; rfl) rfl rfl
  rw [h]
  rfl

/-- A successful exponent-tail parse consumed only digits. -/
theorem parseExpTail_digits (eneg : Bool) (r5 : List Char) (v : Bool × Nat)
    (h : parseExpTail eneg r5 = some v) : ∀ c ∈ r5, pyIsDigit c = true := by
  unfold parseExpTail at h
  split_ifs at h with hcond
  have h2 : r5.dropWhile pyIsDigit = [] := by
    rcases not_or.mp hcond with ⟨_, h2⟩
    simpa using h2
  intro c hc
  exact List.dropWhile_eq_nil_iff.mp h2 c hc

/-- A successful exponent parse (after `e`) consumed only signs and
digits. -/
theorem parseExpDigits_chars (r : List Char) (v : Bool × Nat)
    (h : parseExpDigits r = some v) : ∀ c ∈ r, allowedFloatChar c = true := by
  unfold parseExpDigits at h
  split at h
  · next r5 =>
    intro c hc
    rcases List.mem_cons.mp hc with hc1 | hc5
    · simp [allowedFloatChar, hc1]
    · have := parseExpTail_digits true r5 v h c hc5
      simp [allowedFloatChar, this]
  · next r5 =>
    intro c hc
    rcases List.mem_cons.mp hc with hc1 | hc5
    · simp [allowedFloatChar, hc1]
    · have := parseExpTail_digits false r5 v h c hc5
      simp [allowedFloatChar, this]
  · intro c hc
    have := parseExpTail_digits false r v h c hc
    simp [allowedFloatChar, this]

/-- The fraction digits returned by `splitFrac` are digits. -/
theorem splitFrac_fst_digits (r1 : List Char) :
    ∀ c ∈ (splitFrac r1).1, pyIsDigit c = true := by
  unfold splitFrac
  split
  · intro c hc
    exact List.mem_takeWhile_imp hc
  · intro c hc
    simp at hc

/-- Either the input began with a decimal point and decomposes into the
point, the fraction digits and the remainder, or `splitFrac` passed it
through unchanged. -/
theorem splitFrac_shape (r1 : List Char) :
    r1 = '.' :: ((splitFrac r1).1 ++ (splitFrac r1).2) ∨ splitFrac r1 = ([], r1) := by
  unfold splitFrac
  split
  · next r2 =>
    left
    simp [List.takeWhile_append_dropWhile]
  · right
    rfl

/-- A successful mantissa-tail parse leaves only an empty or
exponent-shaped remainder, whose characters are all digit-grammar
characters. -/
theorem parseMantTail_chars (neg : Bool) (ip fp r3 : List Char) (pf : PyFloat)
    (h : parseMantTail neg ip fp r3 = some pf) :
    ∀ c ∈ r3, allowedFloatChar c = true := by
  unfold parseMantTail at h
  by_cases hempty : ip.isEmpty ∧ fp.isEmpty
  · rw [if_pos hempty] at h
    simp at h
  rw [if_neg hempty] at h
  split at h
  · next heq =>
    intro c hc
    simp at hc
  · next r4 =>
    intro c hc
    rcases List.mem_cons.mp hc with hc1 | hc4
    · simp [allowedFloatChar, hc1]
    · rcases hped : parseExpDigits r4 with _ | v
      · rw [hped] at h
        simp at h
      · exact parseExpDigits_chars r4 v hped c hc4
  · simp at h

/-- A successful finite parse consumed only digit-grammar characters (the
word spellings `inf`, `infinity`, `nan` parse to non-finite values). -/
theorem parseFloatBody_finite_chars (neg : Bool) (cs : List Char) (q : ℚ)
    (h : parseFloatBody neg cs = some (.finite q)) :
    ∀ c ∈ cs, allowedFloatChar c = true := by
  unfold parseFloatBody at h
  by_cases hinf : cs = "inf".data ∨ cs = "infinity".data
  · rw [if_pos hinf] at h
    cases neg <;> simp at h
  rw [if_neg hinf] at h
  by_cases hnan : cs = "nan".data
  · rw [if_pos hnan] at h
    simp at h
  rw [if_neg hnan] at h
  have hr3 := parseMantTail_chars neg (cs.takeWhile pyIsDigit)
    (splitFrac (cs.dropWhile pyIsDigit)).1 (splitFrac (cs.dropWhile pyIsDigit)).2
    (.finite q) h
  intro c hc
  rcases List.mem_append.mp
      (by rw [← List.takeWhile_append_dropWhile pyIsDigit cs] at hc; exact hc) with hip | hr1
  · have := List.mem_takeWhile_imp hip
    simp [allowedFloatChar, this]
  · rcases splitFrac_shape (cs.dropWhile pyIsDigit) with hshape | hshape
    · rw [hshape] at hr1
      rcases List.mem_cons.mp hr1 with hcdot | hcr
      · simp [allowedFloatChar, hcdot]
      rcases List.mem_append.mp hcr with hfp | hr3m
      · have := splitFrac_fst_digits (cs.dropWhile pyIsDigit) c hfp
        simp [allowedFloatChar, this]
      · exact hr3 c hr3m
    · have h2 : (splitFrac (cs.dropWhile pyIsDigit)).2 = cs.dropWhile pyIsDigit := by
        rw [hshape]
      exact hr3 c (by rw [h2]; exact hr1)

/-- A text over the digit-grammar alphabet never contains the substring
`inf`. -/
theorem noInf_of_allowed (cs : List Char)
    (h : ∀ c ∈ cs, allowedFloatChar c = true) :
    strContainsGo "inf".data cs = false := by
  induction cs with
  | nil => rfl
  | cons c cs ih =>
    have hc := h c (by simp)
    have hci : c ≠ 'i' := by
      intro he
      subst he
      exact absurd hc (by decide)
    unfold strContainsGo
    have hnp : "inf".data.isPrefixOf (c :: cs) = false := by
      show (('i' :: "nf".data).isPrefixOf (c :: cs)) = false
      unfold List.isPrefixOf
      simp
      intro he
      exact absurd he.symm hci
    rw [hnp]
    simp [ih (fun c' hc' => h c' (by simp [hc']))]

/-- A text over the digit-grammar alphabet is not the word `nan`. -/
theorem notNan_of_allowed (cs : List Char)
    (h : ∀ c ∈ cs, allowedFloatChar c = true) : cs ≠ "nan".data := by
  intro he
  have hn : ('n' : Char) ∈ cs := by
    rw [he]
    simp
  exact absurd (h 'n' hn) (by decide)

/-- A string that `float()` parses to a finite value passes
`validate_trust_score`'s special-spelling screens: its lower-cased stripped
form has no `inf` substring and is not `nan`. -/
theorem pyFloatParse_finite_clean (s : String) (q : ℚ)
    (hp : pyFloatParse s = some (.finite q)) :
    strContains (pyStrip (pyLower s)) "inf" = false ∧ pyStrip (pyLower s) ≠ "nan" := by
  have hall : ∀ c ∈ (pyStrip (pyLower s)).data, allowedFloatChar c = true := by
    unfold pyFloatParse at hp
    split at hp
    · next r heq =>
      intro c hc
      rw [heq] at hc
      rcases List.mem_cons.mp hc with h1 | h5
      · simp [allowedFloatChar, h1]
      · exact parseFloatBody_finite_chars true r q hp c h5
    · next r heq =>
      intro c hc
      rw [heq] at hc
      rcases List.mem_cons.mp hc with h1 | h5
      · simp [allowedFloatChar, h1]
      · exact parseFloatBody_finite_chars false r q hp c h5
    · exact parseFloatBody_finite_chars false _ q hp
  refine ⟨noInf_of_allowed _ hall, ?_⟩
  intro he
  have : (pyStrip (pyLower s)).data = "nan".data := by
    rw [he]
  exact notNan_of_allowed _ hall this

/-- With no bypass active, `validate_trust_score` is its non-bypass body. -/
theorem vts_no_bypass (score : PyVal) (required : Bool) (source : String) :
    validate_trust_score score required source false = validateTrustMain score required source :=
  rfl

/-- Unfolding lemma for `validateTrustRange` at a finite value. -/
theorem validateTrustRange_finite (q : ℚ) (source : String) :
    validateTrustRange (.finite q) source =
      if q < 0 ∨ q > 100 then
        .error (create_error .VALUE_OUT_OF_RANGE (some (source ++ " trustScore"))
          [("min", "0"), ("max", "100")])
      else .ok (some (.finite q)) := rfl

/-- Claim C6. With no bypass active, `validate_trust_score` rejects booleans,
the special floats inf, -inf and nan, the case-insensitive string spellings
`Infinity`/`inf`/`NaN`, every non-numeric value (unparsable strings, `None`
under the default required flag, lists, dicts) and every number outside
`[0, 100]`; and a numeric string representing a value in `[0, 100]`
validates to exactly the same float as the number itself. -/
theorem C6_trust_score_validation :
    (∀ b : Bool, isVErr (validate_trust_score (.bool b) true "agent" false) = true) ∧
    isVErr (validate_trust_score (.float .inf) true "agent" false) = true ∧
    isVErr (validate_trust_score (.float .negInf) true "agent" false) = true ∧
    isVErr (validate_trust_score (.float .nan) true "agent" false) = true ∧
    (∀ s : String,
      pyStrip (pyLower s) = "infinity" ∨ pyStrip (pyLower s) = "inf" ∨
        pyStrip (pyLower s) = "nan" →
      isVErr (validate_trust_score (.str s) true "agent" false) = true) ∧
    (∀ s : String, pyFloatParse s = Option.none →
      isVErr (validate_trust_score (.str s) true "agent" false) = true) ∧
    isVErr (validate_trust_score .none true "agent" false) = true ∧
    (∀ xs : List PyVal, isVErr (validate_trust_score (.list xs) true "agent" false) = true) ∧
    (∀ xs : List (String × PyVal),
      isVErr (validate_trust_score (.dict xs) true "agent" false) = true) ∧
    (∀ q : ℚ, q < 0 ∨ q > 100 →
      isVErr (validate_trust_score (.float (.finite q)) true "agent" false) = true) ∧
    (∀ n : ℤ, (n : ℚ) < 0 ∨ (n : ℚ) > 100 →
      isVErr (validate_trust_score (.int n) true "agent" false) = true) ∧
    (∀ s : String, ∀ q : ℚ, pyFloatParse s = some (.finite q) → 0 ≤ q → q ≤ 100 →
      validate_trust_score (.str s) true "agent" false = .ok (some (.finite q)) ∧
      validate_trust_score (.float (.finite q)) true "agent" false = .ok (some (.finite q))) := by
  refine ⟨?_, rfl, rfl, rfl, ?_, ?_, rfl, fun xs => rfl, fun xs => rfl, ?_, ?_, ?_⟩
  · intro b
    cases b <;> rfl
  · intro s h
    rw [vts_no_bypass]
    show isVErr (validateTrustString s "agent") = true
    unfold validateTrustString
    rcases h with h | h | h <;> rw [h] <;> rfl
  · intro s hp
    rw [vts_no_bypass]
    show isVErr (validateTrustString s "agent") = true
    unfold validateTrustString
    by_cases h1 : strContains (pyStrip (pyLower s)) "inf" = true
    · rw [if_pos h1]
      rfl
    · rw [if_neg h1]
      by_cases h2 : pyStrip (pyLower s) = "nan"
      · rw [if_pos h2]
        rfl
      · rw [if_neg h2, hp]
        rfl
  · intro q h
    rw [vts_no_bypass]
    show isVErr (validateTrustRange (.finite q) "agent") = true
    rw [validateTrustRange_finite, if_pos h]
    rfl
  · intro n h
    rw [vts_no_bypass]
    show isVErr (validateTrustRange (.finite (n : ℚ)) "agent") = true
    rw [validateTrustRange_finite, if_pos h]
    rfl
  · intro s q hp h0 h100
    obtain ⟨hinf, hnan⟩ := pyFloatParse_finite_clean s q hp
    have hrange : ¬ (q < 0 ∨ q > 100) := by
      rintro (h | h) <;> linarith
    constructor
    · rw [vts_no_bypass]
      show validateTrustString s "agent" = .ok (some (.finite q))
      unfold validateTrustString
      rw [hinf]
      rw [if_neg (by simp)]
      rw [if_neg hnan, hp]
      show validateTrustRange (.finite q) "agent" = .ok (some (.finite q))
      rw [validateTrustRange_finite, if_neg hrange]
    · rw [vts_no_bypass]
      show validateTrustRange (.finite q) "agent" = .ok (some (.finite q))
      rw [validateTrustRange_finite, if_neg hrange]

/-- Witness for C6 at concrete inputs: the string `"85"` and the number 85
validate to the same float `85.0`; `True`, `"Infinity"`, `"abc"` and `101`
are rejected. -/
theorem C6_trust_score_validation_witness :
    pyFloatParse "85" = some (.finite 85) ∧ (0 : ℚ) ≤ 85 ∧ (85 : ℚ) ≤ 100 ∧
    validate_trust_score (.str "85") true "agent" false = .ok (some (.finite 85)) ∧
    validate_trust_score (.float (.finite 85)) true "agent" false = .ok (some (.finite 85)) ∧
    isVErr (validate_trust_score (.bool true) true "agent" false) = true ∧
    pyStrip (pyLower "Infinity") = "infinity" ∧
    isVErr (validate_trust_score (.str "Infinity") true "agent" false) = true ∧
    pyFloatParse "abc" = Option.none ∧
    isVErr (validate_trust_score (.str "abc") true "agent" false) = true ∧
    ((101 : ℚ) < 0 ∨ (101 : ℚ) > 100) ∧
    isVErr (validate_trust_score (.float (.finite 101)) true "agent" false) = true := by
  obtain ⟨hbool, hinf, hninf, hnan, hstrs, hnonnum, hnone, hlist, hdict, hq, hn, hxinv⟩ :=
    C6_trust_score_validation
  have hparse : pyFloatParse "85" = some (.finite 85) := rfl
  have hIq : (0 : ℚ) ≤ 85 := by norm_num
  have hIq2 : (85 : ℚ) ≤ 100 := by norm_num
  have hinv := hxinv "85" 85 hparse hIq hIq2
  refine ⟨hparse, hIq, hIq2, hinv.1, hinv.2, hbool true, rfl,
    hstrs "Infinity" (Or.inl rfl), rfl, hnonnum "abc" rfl, by norm_num,
    hq 101 (by norm_num)⟩

/-- Length of the rendering of the nested-dict probe: seven characters per
level plus the innermost `0`. -/
theorem pyRepr_nestD_length (k : Nat) : (pyRepr (nestD k)).length = 7 * k + 1 := by
  induction k with
  | zero => rfl
  | succ k ih =>
    show (pyRepr (.dict [("a", nestD k)])).length = 7 * (k + 1) + 1
    simp only [pyRepr, pyReprFields, commaJoin]
    rw [String.length_append, String.length_append, String.length_append,
      String.length_append, String.length_append, ih]
    have h1 : ("\x7b" : String).length = 1 := rfl
    have h2 : ("\x27" : String).length = 1 := rfl
    have h2a : ("a" : String).length = 1 := rfl
    have h3 : ("\x27: " : String).length = 3 := rfl
    have h4 : ("\x7d" : String).length = 1 := rfl
    omega

/-- Unfolding equation: `validate_nested_value` on a dict. -/
theorem vnv_dict_eq (xs : List (String × PyVal)) (p : String) (d : Nat) :
    validate_nested_value (.dict xs) p d =
      if d > MAX_JSON_DEPTH then
        .error (create_error .DEPTH_EXCEEDED Option.none
          [("max_depth", toString MAX_JSON_DEPTH), ("current_depth", toString d)])
      else
        match validateNestedFields xs p d with
        | .ok ys => .ok (.dict ys)
        | .error e => .error e := rfl

/-- Unfolding equation: `validate_nested_value` on an int. -/
theorem vnv_int_eq (n : ℤ) (p : String) (d : Nat) :
    validate_nested_value (.int n) p d =
      if d > MAX_JSON_DEPTH then
        .error (create_error .DEPTH_EXCEEDED Option.none
          [("max_depth", toString MAX_JSON_DEPTH), ("current_depth", toString d)])
      else .ok (.int n) := rfl

/-- Unfolding equation: `validateNestedFields` on a non-polluting entry. -/
theorem vnf_cons_eq (k : String) (v : PyVal) (rest : List (String × PyVal)) (p : String)
    (d : Nat) (hk : isPollutionKey k = false) :
    validateNestedFields ((k, v) :: rest) p d =
      match validate_nested_value v (p ++ "." ++ k) (d + 1) with
      | .error e => .error e
      | .ok v2 =>
        match validateNestedFields rest p d with
        | .error e => .error e
        | .ok ys => .ok ((k, v2) :: ys) := by
  conv_lhs => unfold validateNestedFields
  rw [hk]
  simp

/-- `validate_nested_value` passes the nested-dict probe through when it
fits within the depth budget. -/
theorem vnv_nestD_ok (k : Nat) : ∀ d : Nat, ∀ p : String, d + k ≤ MAX_JSON_DEPTH →
    validate_nested_value (nestD k) p d = .ok (nestD k) := by
  induction k with
  | zero =>
    intro d p hd
    show validate_nested_value (.int 0) p d = .ok (.int 0)
    rw [vnv_int_eq, if_neg (by omega)]
  | succ k ih =>
    intro d p hd
    show validate_nested_value (.dict [("a", nestD k)]) p d = .ok (.dict [("a", nestD k)])
    rw [vnv_dict_eq, if_neg (by omega)]
    rw [vnf_cons_eq "a" (nestD k) [] p d (by decide)]
    rw [ih (d + 1) (p ++ "." ++ "a") (by omega)]
    rfl

/-- `validate_nested_value` rejects the nested-dict probe with the constant
depth error as soon as it overflows the budget. -/
theorem vnv_nestD_overflow (k : Nat) : ∀ d : Nat, ∀ p : String, d ≤ MAX_JSON_DEPTH + 1 →
    MAX_JSON_DEPTH < d + k →
    validate_nested_value (nestD k) p d = .error depthErr101 := by
  induction k with
  | zero =>
    intro d p hd hover
    have hd101 : d = MAX_JSON_DEPTH + 1 := by omega
    subst hd101
    show validate_nested_value (.int 0) p (MAX_JSON_DEPTH + 1) = .error depthErr101
    rw [vnv_int_eq, if_pos (by omega)]
    rfl
  | succ k ih =>
    intro d p hd hover
    by_cases hd101 : d = MAX_JSON_DEPTH + 1
    · subst hd101
      show validate_nested_value (.dict [("a", nestD k)]) p (MAX_JSON_DEPTH + 1) =
        .error depthErr101
      rw [vnv_dict_eq, if_pos (by omega)]
      rfl
    · show validate_nested_value (.dict [("a", nestD k)]) p d = .error depthErr101
      rw [vnv_dict_eq, if_neg (by omega)]
      rw [vnf_cons_eq "a" (nestD k) [] p d (by decide)]
      rw [ih (d + 1) (p ++ "." ++ "a") (by omega) (by omega)]

/-- Unfolding equation: `validate_json_depth` on a dict. -/
theorem vjd_dict_eq (xs : List (String × PyVal)) (d : Nat) :
    validate_json_depth (.dict xs) d =
      if d > MAX_JSON_DEPTH then
        .error (create_error .DEPTH_EXCEEDED Option.none
          [("max_depth", toString MAX_JSON_DEPTH), ("current_depth", toString d)])
      else jsonDepthFields xs d := rfl

/-- Unfolding equation: `validate_json_depth` on an int. -/
theorem vjd_int_eq (n : ℤ) (d : Nat) :
    validate_json_depth (.int n) d =
      if d > MAX_JSON_DEPTH then
        .error (create_error .DEPTH_EXCEEDED Option.none
          [("max_depth", toString MAX_JSON_DEPTH), ("current_depth", toString d)])
      else .ok () := rfl

/-- `validate_json_depth` accepts the nested-dict probe within the depth
budget. -/
theorem vjd_nestD_ok (k : Nat) : ∀ d : Nat, d + k ≤ MAX_JSON_DEPTH →
    validate_json_depth (nestD k) d = .ok () := by
  induction k with
  | zero =>
    intro d hd
    show validate_json_depth (.int 0) d = .ok ()
    rw [vjd_int_eq, if_neg (by omega)]
  | succ k ih =>
    intro d hd
    show validate_json_depth (.dict [("a", nestD k)]) d = .ok ()
    rw [vjd_dict_eq, if_neg (by omega)]
    unfold jsonDepthFields
    rw [ih (d + 1) (by omega)]
    rfl

/-- `validate_json_depth` rejects the nested-dict probe with the constant
depth error as soon as it overflows the budget. -/
theorem vjd_nestD_overflow (k : Nat) : ∀ d : Nat, d ≤ MAX_JSON_DEPTH + 1 →
    MAX_JSON_DEPTH < d + k →
    validate_json_depth (nestD k) d = .error depthErr101 := by
  induction k with
  | zero =>
    intro d hd hover
    have hd101 : d = MAX_JSON_DEPTH + 1 := by omega
    subst hd101
    show validate_json_depth (.int 0) (MAX_JSON_DEPTH + 1) = .error depthErr101
    rw [vjd_int_eq, if_pos (by omega)]
    rfl
  | succ k ih =>
    intro d hd hover
    by_cases hd101 : d = MAX_JSON_DEPTH + 1
    · subst hd101
      show validate_json_depth (.dict [("a", nestD k)]) (MAX_JSON_DEPTH + 1) =
        .error depthErr101
      rw [vjd_dict_eq, if_pos (by omega)]
      rfl
    · show validate_json_depth (.dict [("a", nestD k)]) d = .error depthErr101
      rw [vjd_dict_eq, if_neg (by omega)]
      unfold jsonDepthFields
      rw [ih (d + 1) (by omega) (by omega)]

/-- With no bypass active, `validate_agent_context` on a dict is the dict
body. -/
theorem vac_dict_no_bypass (xs : List (String × PyVal)) (source : String) :
    validate_agent_context (.dict xs) source false = validateContextDict xs source false :=
  rfl

/-- Processing the lone deep field `x`: the field loop defers to
`validate_nested_value`. -/
theorem pcf_x_nest (n : Nat) (hn : 1 ≤ n) :
    processContextFields "agent" [("x", nestD n)] =
      match validate_nested_value (nestD n) ("agent" ++ "." ++ "x") 0 with
      | .error e => .error e
      | .ok v2 => .ok [("x", v2)] := by
  obtain ⟨m, rfl⟩ : ∃ m, n = m + 1 := ⟨n - 1, by omega⟩
  show processContextFields "agent" [("x", .dict [("a", nestD m)])] = _
  conv_lhs => unfold processContextFields
  rfl

/-- Length of the rendering of the deep probe context. -/
theorem pyRepr_deepCtx_length (n : Nat) :
    (pyRepr (deepCtx n)).length = 7 * n + 42 := by
  show (pyRepr (.dict [("role", .str "user"), ("trustScore", .int 50), ("x", nestD n)])).length
    = 7 * n + 42
  simp only [pyRepr, pyReprFields, commaJoin]
  repeat rw [String.length_append]
  rw [pyRepr_nestD_length]
  have h1 : ("\x7b" : String).length = 1 := rfl
  have h2 : ("\x27" : String).length = 1 := rfl
  have h3 : ("role" : String).length = 4 := rfl
  have h4 : ("\x27: " : String).length = 3 := rfl
  have h5 : ("u" : String).length = 1 := rfl
  have h6 : (", " : String).length = 2 := rfl
  have h7 : ("trustScore" : String).length = 10 := rfl
  have h8 : (toString (50 : ℤ)).length = 2 := rfl
  have h9 : ("x" : String).length = 1 := rfl
  have h10 : ("user" : String).length = 4 := rfl
  have h11 : ("\x7d" : String).length = 1 := rfl
  omega

/-- Counterexample to claim C7 as stated: a context whose `str()` rendering
exceeds 1 MiB is indeed rejected, but the rejection uses `DOS_LARGE_PAYLOAD`,
whose category is `DOS_ATTACK`, not `SIZE_LIMIT` as the claim says. -/
theorem C7_oversize_category_counterexample :
    MAX_CONTENT_SIZE < (pyRepr (.dict [("role", .str "u"),
        ("x", .str (String.mk (List.replicate 1048577 (Char.ofNat 97))))])).length ∧
    errCategory (validate_agent_context (.dict [("role", .str "u"),
        ("x", .str (String.mk (List.replicate 1048577 (Char.ofNat 97))))]) "agent" false)
      = some ErrorCategory.DOS_ATTACK ∧
    ErrorCategory.DOS_ATTACK ≠ ErrorCategory.SIZE_LIMIT := by
  have hlen : (pyRepr (.dict [("role", .str "u"),
      ("x", .str (String.mk (List.replicate 1048577 (Char.ofNat 97))))])).length
        = 1048599 := by
    simp only [pyRepr, pyReprFields, commaJoin]
    repeat rw [String.length_append]
    have h1 : ("\x7b" : String).length = 1 := rfl
    have h2 : ("\x27" : String).length = 1 := rfl
    have h3 : ("role" : String).length = 4 := rfl
    have h4 : ("\x27: " : String).length = 3 := rfl
    have h5 : ("u" : String).length = 1 := rfl
    have h6 : (", " : String).length = 2 := rfl
    have h7 : ("x" : String).length = 1 := rfl
    have h8 : ("\x7d" : String).length = 1 := rfl
    have hb : (String.mk (List.replicate 1048577 (Char.ofNat 97))).length = 1048577 := by
      show (List.replicate 1048577 (Char.ofNat 97)).length = 1048577
      rw [List.length_replicate]
    omega
  have hbig : (pyRepr (.dict [("role", .str "u"),
      ("x", .str (String.mk (List.replicate 1048577 (Char.ofNat 97))))])).length
        > MAX_CONTENT_SIZE := by
    rw [hlen]; unfold MAX_CONTENT_SIZE; omega
  refine ⟨hbig, ?_, by decide⟩
  rw [vac_dict_no_bypass]
  unfold validateContextDict
  rw [if_neg (fun h => nomatch h)]
  rw [if_pos hbig]
  rfl

set_option maxRecDepth 4000 in
/-- Claim C7, as amended. A context whose `str()` size exceeds 1 MiB is
rejected up front with `DOS_LARGE_PAYLOAD`, whose category is `DOS_ATTACK`
(not `SIZE_LIMIT` as the claim said); a benign context nested beyond 100
mapping levels is rejected with `DEPTH_EXCEEDED`, whose category is
`DEPTH_LIMIT`. (The depth family is bounded above only to keep its
serialized size below the 1 MiB check that runs first.) -/
theorem C7_size_and_depth_guards :
    (∀ xs : List (String × PyVal), ∀ source : String, xs ≠ [] →
      (pyRepr (.dict xs)).length > MAX_CONTENT_SIZE →
      validate_agent_context (.dict xs) source false =
        .error (create_error .DOS_LARGE_PAYLOAD (some source)
          [("size", toString (pyRepr (.dict xs)).length),
           ("max_size", toString MAX_CONTENT_SIZE)]) ∧
      errCategory (validate_agent_context (.dict xs) source false) =
        some .DOS_ATTACK) ∧
    (∀ n : Nat, 100 ≤ n → n ≤ 10000 →
      validate_agent_context (deepCtx n) "agent" false = .error depthErr101 ∧
      errCategory (validate_agent_context (deepCtx n) "agent" false) =
        some .DEPTH_LIMIT) := by
  constructor
  · intro xs source hne hbig
    have hempty : xs.isEmpty = false := by
      cases xs with
      | nil => simp at hne
      | cons a l => rfl
    have herr : validate_agent_context (.dict xs) source false =
        .error (create_error .DOS_LARGE_PAYLOAD (some source)
          [("size", toString (pyRepr (.dict xs)).length),
           ("max_size", toString MAX_CONTENT_SIZE)]) := by
      rw [vac_dict_no_bypass]
      unfold validateContextDict
      rw [hempty]
      rw [if_neg (by simp)]
      rw [if_pos hbig]
    exact ⟨herr, by rw [herr]; rfl⟩
  · intro n h100 h10k
    have hsize : (pyRepr (deepCtx n)).length ≤ MAX_CONTENT_SIZE := by
      rw [pyRepr_deepCtx_length]
      unfold MAX_CONTENT_SIZE
      omega
    have herr : validate_agent_context (deepCtx n) "agent" false = .error depthErr101 := by
      rw [show validate_agent_context (deepCtx n) "agent" false =
        validateContextDict
          [("role", .str "user"), ("trustScore", .int 50), ("x", nestD n)] "agent" false
        from rfl]
      unfold validateContextDict
      rw [if_neg (by simp)]
      rw [if_neg (by
        rw [show (pyRepr (PyVal.dict
            [("role", .str "user"), ("trustScore", .int 50), ("x", nestD n)])).length =
          (pyRepr (deepCtx n)).length from rfl]
        omega)]
      show (match processContextFields "agent" [("x", nestD n)] with
        | .error e => Except.error e
        | .ok fieldEntries =>
          finalizeContext
            (("role", PyVal.str "user") :: [("trustScore", PyVal.float (.finite 50))] ++
              fieldEntries) "agent") = .error depthErr101
      rw [pcf_x_nest n (by omega)]
      by_cases hn101 : 101 ≤ n
      · rw [vnv_nestD_overflow n 0 ("agent" ++ "." ++ "x")
          (by unfold MAX_JSON_DEPTH; omega) (by unfold MAX_JSON_DEPTH; omega)]
      · have hn100 : n = 100 := by omega
        subst hn100
        rw [vnv_nestD_ok 100 0 ("agent" ++ "." ++ "x") (by unfold MAX_JSON_DEPTH; omega)]
        show finalizeContext
          [("role", .str "user"), ("trustScore", .float (.finite 50)), ("x", nestD 100)]
          "agent" = .error depthErr101
        unfold finalizeContext
        have hvjd : validate_json_depth (.dict
            [("role", .str "user"), ("trustScore", .float (.finite 50)),
             ("x", nestD 100)]) 0 = .error depthErr101 := by
          rw [vjd_dict_eq, if_neg (by unfold MAX_JSON_DEPTH; omega)]
          show (match validate_json_depth (nestD 100) (0 + 1) with
            | .error e => Except.error e
            | .ok _ => jsonDepthFields [] 0) = Except.error depthErr101
          rw [vjd_nestD_overflow 100 1 (by unfold MAX_JSON_DEPTH; omega)
            (by unfold MAX_JSON_DEPTH; omega)]
        rw [hvjd]
    exact ⟨herr, by rw [herr]; rfl⟩

/-- Witness for C7 at concrete inputs: the 102-level probe is rejected with
the depth error of category `DEPTH_LIMIT`, and a small non-empty dict with
an over-limit rendering hypothesis is impossible to instantiate cheaply, so
the size half is witnessed through the deep probe's size-free path plus the
category computation on a concrete oversized context handled in the
counterexample theorem for C7. -/
theorem C7_size_and_depth_guards_witness :
    (100 ≤ 102 ∧ 102 ≤ 10000 ∧
      validate_agent_context (deepCtx 102) "agent" false = .error depthErr101 ∧
      errCategory (validate_agent_context (deepCtx 102) "agent" false) =
        some .DEPTH_LIMIT) := by
  obtain ⟨hsz, hdp⟩ := C7_size_and_depth_guards
  obtain ⟨h1, h2⟩ := hdp 102 (by omega) (by omega)
  exact ⟨by omega, by omega, h1, h2⟩

/-- Claim C8 refuted. With a task-scoped bypass still active for thread 1
(created at time 1000.9, lasting 300 seconds), a second task-scoped
`create_bypass` on the same thread at time 1001.2 does not reuse the
existing bypass identity: it builds a fresh `BypassContext` whose
`bypass_id` embeds the new integer timestamp (`bypass_1001_1` instead of
`bypass_1000_1`) and overwrites the table slot, so the active bypass
identity changes. -/
theorem C8_second_bypass_does_not_reuse_identity :
    (((BypassManager.mk [] Option.none).create_bypass "maintenance" 300 Option.none false
        (mkRat 10009 10) 1).2.bypass_id = "bypass_1000_1") ∧
    ((((BypassManager.mk [] Option.none).create_bypass "maintenance" 300 Option.none false
        (mkRat 10009 10) 1).1.get_active_bypass (mkRat 10012 10) 1).isSome = true) ∧
    ((((BypassManager.mk [] Option.none).create_bypass "maintenance" 300 Option.none false
        (mkRat 10009 10) 1).1.create_bypass "maintenance" 300 Option.none false
        (mkRat 10012 10) 1).2.bypass_id = "bypass_1001_1") ∧
    (((((BypassManager.mk [] Option.none).create_bypass "maintenance" 300 Option.none false
        (mkRat 10009 10) 1).1.create_bypass "maintenance" 300 Option.none false
        (mkRat 10012 10) 1).1.get_active_bypass (mkRat 10012 10) 1)
      = some ((((BypassManager.mk [] Option.none).create_bypass "maintenance" 300
        Option.none false (mkRat 10009 10) 1).1.create_bypass "maintenance" 300
        Option.none false (mkRat 10012 10) 1).2)) ∧
    ("bypass_1001_1" ≠ "bypass_1000_1") := by
  have hact1 : BypassContext.is_active
      (BypassContext.create "maintenance" 300 Option.none (mkRat 10009 10) 1)
      (mkRat 10012 10) = true := by
    rw [show BypassContext.is_active
        (BypassContext.create "maintenance" 300 Option.none (mkRat 10009 10) 1)
        (mkRat 10012 10)
      = decide (mkRat 10012 10 < mkRat 10009 10 + ((300 : ℤ) : ℚ)) from rfl]
    rw [decide_eq_true_eq, Rat.mkRat_eq_div, Rat.mkRat_eq_div]
    norm_num
  have hact2 : BypassContext.is_active
      (BypassContext.create "maintenance" 300 Option.none (mkRat 10012 10) 1)
      (mkRat 10012 10) = true := by
    rw [show BypassContext.is_active
        (BypassContext.create "maintenance" 300 Option.none (mkRat 10012 10) 1)
        (mkRat 10012 10)
      = decide (mkRat 10012 10 < mkRat 10012 10 + ((300 : ℤ) : ℚ)) from rfl]
    rw [decide_eq_true_eq, Rat.mkRat_eq_div]
    norm_num
  refine ⟨by decide, ?_, by decide, ?_, by decide⟩
  · show (if BypassContext.is_active
        (BypassContext.create "maintenance" 300 Option.none (mkRat 10009 10) 1)
        (mkRat 10012 10)
      then some (BypassContext.create "maintenance" 300 Option.none (mkRat 10009 10) 1)
      else Option.none).isSome = true
    rw [hact1]
    rfl
  · show (if BypassContext.is_active
        (BypassContext.create "maintenance" 300 Option.none (mkRat 10012 10) 1)
        (mkRat 10012 10)
      then some (BypassContext.create "maintenance" 300 Option.none (mkRat 10012 10) 1)
      else Option.none)
      = some (BypassContext.create "maintenance" 300 Option.none (mkRat 10012 10) 1)
    rw [hact2]
    rfl

/-! ### Injection-cleanness of the normalized ligature probe

The NFKC normalization of the `ﬁ` probe is the string `fifi...fi`. No
injection pattern can match inside a text whose characters are all `f` or
`i`: every matcher requires, at its match position, a character outside
that alphabet (for the `insert` keyword, an `n` right after the `i`). -/

theorem mhNullByte_fi (prev : Option Char) (cs : List Char)
    (h : ∀ c ∈ cs, c = 'f' ∨ c = 'i') : mhNullByte prev cs = false := by
  cases cs with
  | nil => rfl
  | cons c cs => rcases h c (List.mem_cons_self c cs) with rfl | rfl <;> rfl

theorem mhJsProtocol_fi (prev : Option Char) (cs : List Char)
    (h : ∀ c ∈ cs, c = 'f' ∨ c = 'i') : mhJsProtocol prev cs = false := by
  cases cs with
  | nil => rfl
  | cons c cs => rcases h c (List.mem_cons_self c cs) with rfl | rfl <;> rfl

theorem mhXssTag_fi (prev : Option Char) (cs : List Char)
    (h : ∀ c ∈ cs, c = 'f' ∨ c = 'i') : mhXssTag prev cs = false := by
  cases cs with
  | nil => rfl
  | cons c cs => rcases h c (List.mem_cons_self c cs) with rfl | rfl <;> rfl

theorem mhEventHandler_fi (prev : Option Char) (cs : List Char)
    (h : ∀ c ∈ cs, c = 'f' ∨ c = 'i') : mhEventHandler prev cs = false := by
  cases cs with
  | nil => exact Bool.and_false _
  | cons c cs =>
    rcases h c (List.mem_cons_self c cs) with rfl | rfl <;> exact Bool.and_false _

theorem mhPathTraversal_fi (prev : Option Char) (cs : List Char)
    (h : ∀ c ∈ cs, c = 'f' ∨ c = 'i') : mhPathTraversal prev cs = false := by
  cases cs with
  | nil => rfl
  | cons c cs => rcases h c (List.mem_cons_self c cs) with rfl | rfl <;> rfl

theorem mhSystemPathStart_fi (prev : Option Char) (cs : List Char)
    (h : ∀ c ∈ cs, c = 'f' ∨ c = 'i') : mhSystemPathStart prev cs = false := by
  cases cs with
  | nil => exact Bool.and_false _
  | cons c cs =>
    rcases h c (List.mem_cons_self c cs) with rfl | rfl <;> exact Bool.and_false _

theorem mhSystemPathSpace_fi (prev : Option Char) (cs : List Char)
    (h : ∀ c ∈ cs, c = 'f' ∨ c = 'i') : mhSystemPathSpace prev cs = false := by
  cases cs with
  | nil => rfl
  | cons c cs => rcases h c (List.mem_cons_self c cs) with rfl | rfl <;> rfl

theorem mhSqlBoolSpaced_fi (q : Char) (hq : q = '\x27' ∨ q = '"')
    (prev : Option Char) (cs : List Char)
    (h : ∀ c ∈ cs, c = 'f' ∨ c = 'i') : mhSqlBoolSpaced q prev cs = false := by
  cases cs with
  | nil => rcases hq with rfl | rfl <;> rfl
  | cons c cs =>
    rcases hq with rfl | rfl <;>
      rcases h c (List.mem_cons_self c cs) with rfl | rfl <;> rfl

theorem mhSqlBoolTight_fi (q : Char) (hq : q = '\x27' ∨ q = '"')
    (prev : Option Char) (cs : List Char)
    (h : ∀ c ∈ cs, c = 'f' ∨ c = 'i') : mhSqlBoolTight q prev cs = false := by
  cases cs with
  | nil => rcases hq with rfl | rfl <;> rfl
  | cons c cs =>
    rcases hq with rfl | rfl <;>
      rcases h c (List.mem_cons_self c cs) with rfl | rfl <;> rfl

theorem mhSqlBoolSimple_fi (q : Char) (hq : q = '\x27' ∨ q = '"')
    (prev : Option Char) (cs : List Char)
    (h : ∀ c ∈ cs, c = 'f' ∨ c = 'i') : mhSqlBoolSimple q prev cs = false := by
  cases cs with
  | nil => rcases hq with rfl | rfl <;> rfl
  | cons c cs =>
    rcases hq with rfl | rfl <;>
      rcases h c (List.mem_cons_self c cs) with rfl | rfl <;> rfl

theorem mhSqlBoolBare_fi (q : Char) (hq : q = '\x27' ∨ q = '"')
    (prev : Option Char) (cs : List Char)
    (h : ∀ c ∈ cs, c = 'f' ∨ c = 'i') : mhSqlBoolBare q prev cs = false := by
  cases cs with
  | nil => rcases hq with rfl | rfl <;> rfl
  | cons c cs =>
    rcases hq with rfl | rfl <;>
      rcases h c (List.mem_cons_self c cs) with rfl | rfl <;> rfl

theorem mhKwSql_fi (prev : Option Char) (cs : List Char)
    (h : ∀ c ∈ cs, c = 'f' ∨ c = 'i') :
    mhKeywords ["union", "select", "insert", "update", "delete", "drop", "create",
      "alter", "exec", "execute", "declare", "cast", "convert"] prev cs = false := by
  cases cs with
  | nil => exact Bool.and_false _
  | cons c cs =>
    rcases h c (List.mem_cons_self c cs) with rfl | rfl
    · exact Bool.and_false _
    · cases cs with
      | nil => exact Bool.and_false _
      | cons d ds =>
        rcases h d (List.mem_cons_of_mem _ (List.mem_cons_self d ds)) with rfl | rfl <;>
          exact Bool.and_false _

theorem mhSqlComment_fi (prev : Option Char) (cs : List Char)
    (h : ∀ c ∈ cs, c = 'f' ∨ c = 'i') : mhSqlComment prev cs = false := by
  cases cs with
  | nil => rfl
  | cons c cs => rcases h c (List.mem_cons_self c cs) with rfl | rfl <;> rfl

theorem mhCmdChars_fi (prev : Option Char) (cs : List Char)
    (h : ∀ c ∈ cs, c = 'f' ∨ c = 'i') : mhCmdChars prev cs = false := by
  cases cs with
  | nil => rfl
  | cons c cs => rcases h c (List.mem_cons_self c cs) with rfl | rfl <;> rfl

theorem mhKwCmd_fi (prev : Option Char) (cs : List Char)
    (h : ∀ c ∈ cs, c = 'f' ∨ c = 'i') :
    mhKeywords ["sh", "bash", "cmd", "powershell", "nc", "netcat", "wget", "curl"]
      prev cs = false := by
  cases cs with
  | nil => exact Bool.and_false _
  | cons c cs =>
    rcases h c (List.mem_cons_self c cs) with rfl | rfl <;> exact Bool.and_false _

theorem mhProtoPollution_fi (prev : Option Char) (cs : List Char)
    (h : ∀ c ∈ cs, c = 'f' ∨ c = 'i') : mhProtoPollution prev cs = false := by
  cases cs with
  | nil => rfl
  | cons c cs => rcases h c (List.mem_cons_self c cs) with rfl | rfl <;> rfl

/-- A matcher that fails at every position of an `fi`-alphabet text fails to
match anywhere in it. -/
theorem scanWithPrev_fi_false (m : Option Char → List Char → Bool)
    (hm : ∀ prev cs, (∀ c ∈ cs, c = 'f' ∨ c = 'i') → m prev cs = false)
    (cs : List Char) (h : ∀ c ∈ cs, c = 'f' ∨ c = 'i') :
    ∀ prev, scanWithPrev m prev cs = false := by
  induction cs with
  | nil => intro prev; rfl
  | cons c cs ih =>
    intro prev
    have h1 : ∀ x ∈ cs, x = 'f' ∨ x = 'i' := fun x hx => h x (List.mem_cons_of_mem _ hx)
    simp only [scanWithPrev]
    rw [hm prev (c :: cs) h, ih h1 (some c)]
    decide

/-- The injection screen passes any text over the alphabet `{f, i}`. -/
theorem checkInjection_fi (s : String) (h : ∀ c ∈ s.data, c = 'f' ∨ c = 'i') :
    checkInjection s = Option.none := by
  have s1 := scanWithPrev_fi_false mhNullByte (fun p cs hh => mhNullByte_fi p cs hh) s.data h
  have s2 := scanWithPrev_fi_false mhJsProtocol (fun p cs hh => mhJsProtocol_fi p cs hh) s.data h
  have s3 := scanWithPrev_fi_false mhXssTag (fun p cs hh => mhXssTag_fi p cs hh) s.data h
  have s4 := scanWithPrev_fi_false mhEventHandler (fun p cs hh => mhEventHandler_fi p cs hh) s.data h
  have s5 := scanWithPrev_fi_false mhPathTraversal (fun p cs hh => mhPathTraversal_fi p cs hh) s.data h
  have s6 := scanWithPrev_fi_false mhSystemPathStart (fun p cs hh => mhSystemPathStart_fi p cs hh) s.data h
  have s7 := scanWithPrev_fi_false mhSystemPathSpace (fun p cs hh => mhSystemPathSpace_fi p cs hh) s.data h
  have s8 := scanWithPrev_fi_false (mhSqlBoolSpaced '\x27') (fun p cs hh => mhSqlBoolSpaced_fi _ (Or.inl rfl) p cs hh) s.data h
  have s9 := scanWithPrev_fi_false (mhSqlBoolSpaced '"') (fun p cs hh => mhSqlBoolSpaced_fi _ (Or.inr rfl) p cs hh) s.data h
  have s10 := scanWithPrev_fi_false (mhSqlBoolTight '\x27') (fun p cs hh => mhSqlBoolTight_fi _ (Or.inl rfl) p cs hh) s.data h
  have s11 := scanWithPrev_fi_false (mhSqlBoolTight '"') (fun p cs hh => mhSqlBoolTight_fi _ (Or.inr rfl) p cs hh) s.data h
  have s12 := scanWithPrev_fi_false (mhSqlBoolSimple '\x27') (fun p cs hh => mhSqlBoolSimple_fi _ (Or.inl rfl) p cs hh) s.data h
  have s13 := scanWithPrev_fi_false (mhSqlBoolSimple '"') (fun p cs hh => mhSqlBoolSimple_fi _ (Or.inr rfl) p cs hh) s.data h
  have s14 := scanWithPrev_fi_false (mhSqlBoolBare '\x27') (fun p cs hh => mhSqlBoolBare_fi _ (Or.inl rfl) p cs hh) s.data h
  have s15 := scanWithPrev_fi_false (mhSqlBoolBare '"') (fun p cs hh => mhSqlBoolBare_fi _ (Or.inr rfl) p cs hh) s.data h
  have s16 := scanWithPrev_fi_false _ (fun p cs hh => mhKwSql_fi p cs hh) s.data h
  have s17 := scanWithPrev_fi_false mhSqlComment (fun p cs hh => mhSqlComment_fi p cs hh) s.data h
  have s18 := scanWithPrev_fi_false mhCmdChars (fun p cs hh => mhCmdChars_fi p cs hh) s.data h
  have s19 := scanWithPrev_fi_false _ (fun p cs hh => mhKwCmd_fi p cs hh) s.data h
  have s20 := scanWithPrev_fi_false mhProtoPollution (fun p cs hh => mhProtoPollution_fi p cs hh) s.data h
  unfold checkInjection INJECTION_PATTERNS
  simp only [List.find?_cons, s1 Option.none, s2 Option.none, s3 Option.none, s4 Option.none,
    s5 Option.none, s6 Option.none, s7 Option.none, s8 Option.none, s9 Option.none,
    s10 Option.none, s11 Option.none, s12 Option.none, s13 Option.none, s14 Option.none,
    s15 Option.none, s16 Option.none, s17 Option.none, s18 Option.none, s19 Option.none,
    s20 Option.none]
  rfl

/-- Length of the ligature probe. -/
theorem fiInput_length (n : Nat) : (fiInput n).length = n := by
  show (List.replicate n 'ﬁ').length = n
  simp

/-- Length of the normalized probe: NFKC doubles it. -/
theorem fiNorm_length (n : Nat) : (fiNorm n).length = 2 * n := by
  show (List.flatten (List.replicate n ['f', 'i'])).length = 2 * n
  induction n with
  | zero => rfl
  | succ k ih =>
    rw [List.replicate_succ, List.flatten_cons, List.length_append, ih]
    have h2 : (['f', 'i'] : List Char).length = 2 := rfl
    rw [h2]
    omega

/-- NFKC of the ligature probe, on character lists. -/
theorem nfkc_fi_list (n : Nat) :
    (List.replicate n 'ﬁ').flatMap (fun c => (nfkcChar c).data)
      = List.flatten (List.replicate n ['f', 'i']) := by
  induction n with
  | zero => rfl
  | succ k ih =>
    rw [List.replicate_succ, List.replicate_succ, List.flatMap_cons, List.flatten_cons, ih]
    rfl

/-- NFKC normalization of the ligature probe is the `fi` run. -/
theorem nfkc_fiInput (n : Nat) : nfkc (fiInput n) = fiNorm n := by
  show String.mk ((List.replicate n 'ﬁ').flatMap (fun c => (nfkcChar c).data))
      = String.mk (List.flatten (List.replicate n ['f', 'i']))
  exact congrArg String.mk (nfkc_fi_list n)

/-- Lower-casing fixes the normalized probe, on character lists. -/
theorem pyLower_fi_list (n : Nat) :
    (List.flatten (List.replicate n ['f', 'i'])).map pyLowerChar
      = List.flatten (List.replicate n ['f', 'i']) := by
  induction n with
  | zero => rfl
  | succ k ih =>
    rw [List.replicate_succ, List.flatten_cons, List.map_append, ih]
    rfl

/-- Lower-casing fixes the normalized probe. -/
theorem pyLower_fiNorm (n : Nat) : pyLower (fiNorm n) = fiNorm n := by
  show String.mk ((List.flatten (List.replicate n ['f', 'i'])).map pyLowerChar)
      = String.mk (List.flatten (List.replicate n ['f', 'i']))
  exact congrArg String.mk (pyLower_fi_list n)

/-- The normalized probe's alphabet is `{f, i}`. -/
theorem fiNorm_chars (n : Nat) : ∀ c ∈ (fiNorm n).data, c = 'f' ∨ c = 'i' := by
  intro c hc
  have hc2 : c ∈ List.flatten (List.replicate n ['f', 'i']) := hc
  rw [List.mem_flatten] at hc2
  obtain ⟨l, hl, hcl⟩ := hc2
  rw [List.mem_replicate] at hl
  rw [hl.2] at hcl
  simpa using hcl

/-- Unfolding equation: the field loop on the lone string field `x`. -/
theorem pcf_x_str (s : String) :
    processContextFields "agent" [("x", .str s)] =
      if s.length > MAX_STRING_LENGTH then
        .error (create_error .SIZE_TOO_LARGE (some ("agent" ++ "." ++ "x"))
          [("max_length", toString MAX_STRING_LENGTH), ("actual_length", toString s.length)])
      else
        match checkInjection (pyLower (nfkc s)) with
        | some attack_type =>
          .error (create_error (contextInjectionCode attack_type) (some ("agent" ++ "." ++ "x"))
            [("pattern", attack_type)])
        | Option.none => .ok [("x", .str (nfkc s))] := rfl

/-- The field loop skips the `role` and `trustScore` entries. -/
theorem pcf_skip_role_ts (tsv v : PyVal) :
    processContextFields "agent" [("role", .str "user"), ("trustScore", tsv), ("x", v)]
      = processContextFields "agent" [("x", v)] := rfl

/-- The ligature-probe context is below the 1 MiB serialized-size cap. -/
theorem ctxIn_size_ok :
    ¬ ((pyRepr (.dict [("role", .str "user"), ("trustScore", .int 50),
        ("x", .str (fiInput 5121))])).length > MAX_CONTENT_SIZE) := by
  simp only [pyRepr, pyReprFields, commaJoin]
  repeat rw [String.length_append]
  have h1 : ("\x7b" : String).length = 1 := rfl
  have h2 : ("\x27" : String).length = 1 := rfl
  have h3 : ("role" : String).length = 4 := rfl
  have h4 : ("\x27: " : String).length = 3 := rfl
  have h5 : ("user" : String).length = 4 := rfl
  have h6 : (", " : String).length = 2 := rfl
  have h7 : ("trustScore" : String).length = 10 := rfl
  have h8 : (toString (50 : ℤ)).length = 2 := rfl
  have h9 : ("x" : String).length = 1 := rfl
  have h10 : ("\x7d" : String).length = 1 := rfl
  have hfi : (fiInput 5121).length = 5121 := fiInput_length 5121
  unfold MAX_CONTENT_SIZE
  omega

/-- The once-validated ligature-probe context is below the 1 MiB cap. -/
theorem ctxOut_size_ok :
    ¬ ((pyRepr (.dict [("role", .str "user"), ("trustScore", .float (.finite 50)),
        ("x", .str (fiNorm 5121))])).length > MAX_CONTENT_SIZE) := by
  simp only [pyRepr, pyReprFields, commaJoin]
  repeat rw [String.length_append]
  have h1 : ("\x7b" : String).length = 1 := rfl
  have h2 : ("\x27" : String).length = 1 := rfl
  have h3 : ("role" : String).length = 4 := rfl
  have h4 : ("\x27: " : String).length = 3 := rfl
  have h5 : ("user" : String).length = 4 := rfl
  have h6 : (", " : String).length = 2 := rfl
  have h7 : ("trustScore" : String).length = 10 := rfl
  have h8 : (pyFloatStr (.finite 50)).length = 4 := rfl
  have h9 : ("x" : String).length = 1 := rfl
  have h10 : ("\x7d" : String).length = 1 := rfl
  have hfi : (fiNorm 5121).length = 10242 := fiNorm_length 5121
  unfold MAX_CONTENT_SIZE
  omega

/-- Counterexample to claim C9: the context whose field `x` is 5121 copies
of the ligature `ﬁ` validates successfully (the raw string is 5121 ≤ 10240
characters, and its NFKC normalization `fifi...fi` is injection-clean), but
re-validating the returned value fails: the stored normalized string has
10242 > 10240 characters, so the second pass rejects it with
`SIZE_TOO_LARGE` at `agent.x`. -/
theorem C9_revalidation_rejects_validated_context :
    validate_agent_context (.dict [("role", .str "user"), ("trustScore", .int 50),
        ("x", .str (fiInput 5121))]) "agent" false
      = .ok [("role", .str "user"), ("trustScore", .float (.finite 50)),
             ("x", .str (fiNorm 5121))] ∧
    validate_agent_context (.dict [("role", .str "user"),
        ("trustScore", .float (.finite 50)), ("x", .str (fiNorm 5121))]) "agent" false
      = .error (create_error .SIZE_TOO_LARGE (some ("agent" ++ "." ++ "x"))
          [("max_length", toString MAX_STRING_LENGTH),
           ("actual_length", toString (fiNorm 5121).length)]) := by
  have hnfkc : nfkc (fiInput 5121) = fiNorm 5121 := nfkc_fiInput 5121
  have hclean : checkInjection (pyLower (nfkc (fiInput 5121))) = Option.none := by
    rw [hnfkc, pyLower_fiNorm]
    exact checkInjection_fi _ (fiNorm_chars 5121)
  have hxlen : ¬ ((fiInput 5121).length > MAX_STRING_LENGTH) := by
    rw [fiInput_length]
    unfold MAX_STRING_LENGTH
    omega
  have hxlen2 : (fiNorm 5121).length > MAX_STRING_LENGTH := by
    rw [fiNorm_length]
    unfold MAX_STRING_LENGTH
    omega
  constructor
  · rw [vac_dict_no_bypass]
    unfold validateContextDict
    rw [if_neg (fun h => nomatch h), if_neg ctxIn_size_ok]
    rw [pcf_skip_role_ts, pcf_x_str]
    rw [if_neg hxlen, hclean, hnfkc]
    have hfin : finalizeContext [("role", .str "user"), ("trustScore", .float (.finite 50)),
        ("x", .str (fiNorm 5121))] "agent"
        = .ok [("role", .str "user"), ("trustScore", .float (.finite 50)),
               ("x", .str (fiNorm 5121))] := by
      unfold finalizeContext
      rw [show validate_json_depth (.dict [("role", .str "user"),
          ("trustScore", .float (.finite 50)), ("x", .str (fiNorm 5121))]) 0 = .ok () from rfl]
      rw [if_neg ctxOut_size_ok]
    show finalizeContext [("role", .str "user"), ("trustScore", .float (.finite 50)),
        ("x", .str (fiNorm 5121))] "agent"
      = .ok [("role", .str "user"), ("trustScore", .float (.finite 50)),
             ("x", .str (fiNorm 5121))]
    exact hfin
  · rw [vac_dict_no_bypass]
    unfold validateContextDict
    rw [if_neg (fun h => nomatch h), if_neg ctxOut_size_ok]
    rw [pcf_skip_role_ts, pcf_x_str]
    rw [if_pos hxlen2]
    rfl

end Vault
